import Mathlib

/-!
# LLM Council — formal model of the council/judge pipeline

A shallow embedding of the orchestration core of the LLM Council browser
extension:

* `src/judge/judge-engine.js` — `buildEvaluationPrompt` (evaluation prompt
  builder) and `DEFAULT_JUDGE_PROMPT`;
* `src/judge/judge-parser.js` — `parseJudgeResponse`, `extractModelScore`,
  `extractRanking` (the judge response parser, regex by regex);
* `src/background/service-worker.js` and the dashboard pipeline
  (`handleSubmit`) — the orchestration state machine, the post-council
  branch, and the judge fallback paths;
* `src/popup/popup.js` — the submission guard (`handleAskCouncil`) and the
  council-selection cap (`toggleCouncilModel`).

Strings are modelled as `List Char` (`Str`).  The JavaScript regexes used by
the parser are literal patterns with a small amount of quantifier structure;
each one is translated into an explicit scanner with the same backtracking
behaviour (leftmost match, greedy `\s*`, lazy `*?`, JS `\s` character class,
ASCII case folding for the `i` flag).  `String.prototype.replace` is
modelled including its `$`-substitution semantics (`$$`, `$&`, the
backquote and quote forms) since `buildEvaluationPrompt` substitutes
user-controlled text into the template.  JS numbers are idealised as `Nat`
(all values relevant here are small nonnegative integers).
-/

/-- Strings are lists of characters. -/
abbrev Str := List Char

/-- ASCII lower-casing, the case folding used here for the JavaScript i regex
flag (every pattern and name in the repository is ASCII). -/
def lowerCh (c : Char) : Char :=
  if 'A' ≤ c ∧ c ≤ 'Z' then Char.ofNat (c.toNat + 32) else c

/-- the JavaScript s-class of whitespace (WhiteSpace ∪ LineTerminator),
by code point: space, tab, LF, VT, FF, CR, NBSP, Ogham space, the U+2000
block, LS, PS, NNBSP, MMSP, ideographic space and the BOM. -/
def jsSpace (c : Char) : Bool :=
  let n := c.toNat
  n == 32 || n == 9 || n == 10 || n == 11 || n == 12 || n == 13 ||
  n == 160 || n == 5760 || (8192 ≤ n && n ≤ 8202) ||
  n == 8232 || n == 8233 || n == 8239 || n == 8287 ||
  n == 12288 || n == 65279

/-- JavaScript LineTerminator set (what `.` without the `s` flag excludes). -/
def lineTermCh (c : Char) : Bool :=
  let n := c.toNat
  n == 10 || n == 13 || n == 8232 || n == 8233

/-- ASCII lower-casing on code points. -/
def lowerCode (n : Nat) : Nat := if 65 ≤ n && n ≤ 90 then n + 32 else n

/-- Case-insensitive character comparison (agrees with comparing
`lowerCh` images, computed on code points). -/
def ciEq (a b : Char) : Bool := lowerCode a.toNat == lowerCode b.toNat

/-- Model: `ciStartsWith pat s`: `pat` is a case-insensitive literal prefix of `s`. -/
def ciStartsWith : Str → Str → Bool
  | [], _ => true
  | _ :: _, [] => false
  | p :: ps, c :: cs => ciEq p c && ciStartsWith ps cs

/-- Model: `startsWithB t s`: `t` is an exact prefix of `s`. -/
def startsWithB : Str → Str → Bool
  | [], _ => true
  | _ :: _, [] => false
  | p :: ps, c :: cs => p == c && startsWithB ps cs

/-- Model: `occursB t s`: `t` occurs as a contiguous substring of `s`. -/
def occursB (t : Str) : Str → Bool
  | [] => startsWithB t []
  | s@(_ :: rest) => startsWithB t s || occursB t rest

/-- Model: `t` occurs as a contiguous substring of `s` (propositional form). -/
def Occurs (t s : Str) : Prop := ∃ x y, s = x ++ t ++ y

/-! ## Judge Response Parser (`src/judge/judge-parser.js`)

Each JavaScript regex is translated into an explicit scanner with the same
matching semantics.  The parser only ever uses literal text patterns plus
`\s*`/`[\s|]*?`/`(\d+)`/`(.+?)`-style quantifiers, so leftmost matching with
the exact greedy/lazy backtracking order is reproduced directly. -/

/-- ASCII digit test (JavaScript `\d`). -/
def isDigitCh (c : Char) : Bool := 48 ≤ c.toNat && c.toNat ≤ 57

/-- Model: `parseInt(digits, 10)` on a run of ASCII digits. -/
def digitsVal (ds : Str) : Nat := ds.foldl (fun acc c => 10 * acc + (c.toNat - 48)) 0

/-- Model: `\s*` (greedy, with backtracking) followed by the literal `name`
matched case-insensitively: returns the remainder after `name`.  The
source escapes the regex metacharacters of `name` (`escapedName`), so `name`
is always matched as literal text. -/
def wsStarThenLit (name : Str) : Str → Option Str
  | [] => if ciStartsWith name [] then some [] else none
  | s@(c :: rest) =>
    if jsSpace c then
      match wsStarThenLit name rest with
      | some r => some r
      | none => if ciStartsWith name s then some (s.drop name.length) else none
    else
      if ciStartsWith name s then some (s.drop name.length) else none

/-- The lazy tail `[\s\S]*?(?=###|$)`: consume minimally until the remainder
starts with `###` or is exhausted; returns the consumed prefix. -/
def lazyUntilHashes : Str → Str
  | [] => []
  | s@(c :: rest) =>
    if startsWithB ("###".data) s then [] else c :: lazyUntilHashes rest

/-- One anchored attempt of the per-model section regex
`###?\s*<name>[\s\S]*?(?=###|$)` at the start of `s` (`#?` greedy);
on success returns the matched block. -/
def sectionStartMatch (name : Str) (s : Str) : Option Str :=
  match s with
  | '#' :: '#' :: rest =>
    let tryTail : Str → Option Str := fun afterHashes =>
      (wsStarThenLit name afterHashes).map (fun rem =>
        let consumed := s.length - rem.length
        s.take (consumed + (lazyUntilHashes rem).length))
    match rest with
    | '#' :: rest2 =>
      match tryTail rest2 with
      | some b => some b
      | none => tryTail rest
    | _ => tryTail rest
  | _ => none

/-- Leftmost match of the section regex over the text (`text.match(...)`). -/
def firstSection (name : Str) : Str → Option Str
  | [] => none
  | s@(_ :: rest) =>
    match sectionStartMatch name s with
    | some b => some b
    | none => firstSection name rest

/-- Model: `[\s|]*?(\d+)\s*/\s*10` after a criterion label: lazily skip
space-or-pipe characters, then require a digit run followed by `/ 10`. -/
def critDigits : Str → Option Nat
  | [] => none
  | s@(c :: rest) =>
    if isDigitCh c then
      let ds := s.takeWhile isDigitCh
      match (s.drop ds.length).dropWhile jsSpace with
      | '/' :: r2 =>
        match r2.dropWhile jsSpace with
        | '1' :: '0' :: _ => some (digitsVal ds)
        | _ => none
      | _ => none
    else if jsSpace c || c = '|' then critDigits rest
    else none

/-- One anchored attempt of `<criterion>[\s|]*?(\d+)\s*/\s*10` (the
criterion label is matched case-insensitively). -/
def critScoreAt (crit : Str) (s : Str) : Option Nat :=
  if ciStartsWith crit s then critDigits (s.drop crit.length) else none

/-- Leftmost match of the criterion score regex over a section block. -/
def firstCritScore (crit : Str) : Str → Option Nat
  | [] => none
  | s@(_ :: rest) =>
    match critScoreAt crit s with
    | some v => some v
    | none => firstCritScore crit rest

/-- Model: `extractScore(criterion)` from `extractModelScore`: the matched digits,
or `0` when the regex does not match. -/
def extractScoreJS (block crit : Str) : Nat := (firstCritScore crit block).getD 0

/-- One anchored attempt of `Total[^|]*\|\s*\**(\d+)\s*\/\s*50\**`
(case-insensitive).  `[^|]*` cannot cross a pipe, so its greedy match up to
the first pipe is the only viable one. -/
def totalAt (s : Str) : Option Nat :=
  if ciStartsWith ("Total".data) s then
    let t := s.drop 5
    let nonPipe := t.takeWhile (· != '|')
    match t.drop nonPipe.length with
    | '|' :: r1 =>
      let r2 := (r1.dropWhile jsSpace).dropWhile (· == '*')
      let ds := r2.takeWhile isDigitCh
      if ds.isEmpty then none
      else
        match (r2.drop ds.length).dropWhile jsSpace with
        | '/' :: r3 =>
          match r3.dropWhile jsSpace with
          | '5' :: '0' :: _ => some (digitsVal ds)
          | _ => none
        | _ => none
    | _ => none
  else none

/-- Leftmost match of the explicit `Total ... <digits>/50` regex. -/
def statedTotal : Str → Option Nat
  | [] => none
  | s@(_ :: rest) =>
    match totalAt s with
    | some v => some v
    | none => statedTotal rest

/-- Terminator lookahead `(?:\n\n|###|$)` of the justification regex. -/
def stopJust (v : Str) : Bool :=
  v.isEmpty || startsWithB ("\n\n".data) v || startsWithB ("###".data) v

/-- Lazy `(.+?)` under the `s` flag (dot matches anything): the minimal
nonempty prefix whose remainder satisfies the terminator lookahead. -/
def lazyCapJust : Str → Option Str
  | [] => none
  | c :: rest => if stopJust rest then some [c] else (lazyCapJust rest).map (c :: ·)

/-- Greedy `\s*` before the lazy capture, backtracking from the maximal
whitespace run down to zero. -/
def justTryWs (t : Str) : Nat → Option Str
  | 0 => lazyCapJust t
  | k + 1 =>
    match lazyCapJust (t.drop (k + 1)) with
    | some v => some v
    | none => justTryWs t k

/-- One anchored attempt of `\*\*Justification:\*\*\s*(.+?)(?:\n\n|###|$)`
(flags `is`); returns the captured group. -/
def justAt (s : Str) : Option Str :=
  if ciStartsWith ("**Justification:**".data) s then
    let t := s.drop 18
    justTryWs t (t.takeWhile jsSpace).length
  else none

/-- Leftmost match of the justification regex. -/
def firstJust : Str → Option Str
  | [] => none
  | s@(_ :: rest) =>
    match justAt s with
    | some v => some v
    | none => firstJust rest

/-- Terminator lookahead `(?:\n\n|$)` of the summary regex. -/
def stopSumm (v : Str) : Bool := v.isEmpty || startsWithB ("\n\n".data) v

/-- Lazy `(.+?)` for the summary regex (flag `s`). -/
def lazyCapSumm : Str → Option Str
  | [] => none
  | c :: rest => if stopSumm rest then some [c] else (lazyCapSumm rest).map (c :: ·)

/-- Greedy `\s*` before the summary capture. -/
def summTryWs (t : Str) : Nat → Option Str
  | 0 => lazyCapSumm t
  | k + 1 =>
    match lazyCapSumm (t.drop (k + 1)) with
    | some v => some v
    | none => summTryWs t k

/-- One anchored attempt of `\*\*Summary:\*\*\s*(.+?)(?:\n\n|$)` (flags `is`). -/
def summAt (s : Str) : Option Str :=
  if ciStartsWith ("**Summary:**".data) s then
    let t := s.drop 12
    summTryWs t (t.takeWhile jsSpace).length
  else none

/-- Leftmost match of the summary regex. -/
def firstSumm : Str → Option Str
  | [] => none
  | s@(_ :: rest) =>
    match summAt s with
    | some v => some v
    | none => firstSumm rest

/-- Model: `\s*(.+)` without the `s` flag: greedy whitespace with backtracking,
then a maximal nonempty run of non-line-terminator characters. -/
def wsStarDotPlus : Str → Option Str
  | [] => none
  | s@(c :: rest) =>
    if jsSpace c then
      match wsStarDotPlus rest with
      | some v => some v
      | none =>
        if lineTermCh c then none
        else some (s.takeWhile (fun d => !(lineTermCh d)))
    else if lineTermCh c then none
    else some (s.takeWhile (fun d => !(lineTermCh d)))

/-- One anchored attempt of the winner regex `###?\s*Winner:\s*(.+)`
(case-insensitive); returns the captured group. -/
def winnerAt (s : Str) : Option Str :=
  match s with
  | '#' :: '#' :: rest =>
    let tryTail : Str → Option Str := fun afterHashes =>
      match wsStarThenLit ("Winner:".data) afterHashes with
      | some rem => wsStarDotPlus rem
      | none => none
    match rest with
    | '#' :: rest2 =>
      match tryTail rest2 with
      | some v => some v
      | none => tryTail rest
    | _ => tryTail rest
  | _ => none

/-- Leftmost match of the winner regex. -/
def firstWinner : Str → Option Str
  | [] => none
  | s@(_ :: rest) =>
    match winnerAt s with
    | some v => some v
    | none => firstWinner rest

/-- Model: `String.prototype.trim` (JS WhiteSpace ∪ LineTerminator from both ends). -/
def trimJS (s : Str) : Str := ((s.dropWhile jsSpace).reverse.dropWhile jsSpace).reverse

/-- Model: `.replace(/\*+/g, <empty>)`: remove every asterisk. -/
def removeStars (s : Str) : Str := s.filter (· != '*')

/-- Model: `String.prototype.split('\n')`. -/
def splitLinesJS : Str → List Str
  | [] => [[]]
  | c :: rest =>
    if c = '\n' then [] :: splitLinesJS rest
    else
      match splitLinesJS rest with
      | [] => [[c]]
      | l :: ls => (c :: l) :: ls

/-- The dash alternatives `[—–-]` of the ranking-line regex. -/
def isDashCh (c : Char) : Bool := c.toNat == 8212 || c.toNat == 8211 || c.toNat == 45

/-- The first terminator alternative `\s*[—–-]\s*\d+` of the ranking-line
regex, as a lookahead test. -/
def rankTermAlt (v : Str) : Bool :=
  match v.dropWhile jsSpace with
  | d :: w => isDashCh d && !(((w.dropWhile jsSpace).takeWhile isDigitCh).isEmpty)
  | [] => false

/-- Terminator lookahead `(?:\s*[—–-]\s*\d+|$)`. -/
def stopRank (v : Str) : Bool := rankTermAlt v || v.isEmpty

/-- Lazy `(.+?)` without the `s` flag (dot excludes line terminators). -/
def lazyCapRank : Str → Option Str
  | [] => none
  | c :: rest =>
    if lineTermCh c then none
    else if stopRank rest then some [c]
    else (lazyCapRank rest).map (c :: ·)

/-- Greedy `\s*` before the ranking capture. -/
def rankTryWs (t : Str) : Nat → Option Str
  | 0 => lazyCapRank t
  | k + 1 =>
    match lazyCapRank (t.drop (k + 1)) with
    | some v => some v
    | none => rankTryWs t k

/-- The per-line ranking regex `^\d+\.\s*(.+?)(?:\s*[—–-]\s*\d+|$)`,
anchored at the start of the line; returns the captured name fragment. -/
def lineRankName (line : Str) : Option Str :=
  let ds := line.takeWhile isDigitCh
  if ds.isEmpty then none
  else
    match line.drop ds.length with
    | '.' :: rest => rankTryWs rest (rest.takeWhile jsSpace).length
    | _ => none

/-- ASCII-lower-cased copy of a string (`toLowerCase` for the ASCII names
used here). -/
def lowerStr (s : Str) : Str := s.map lowerCh

/-- Model: `extractRanking(text, modelNames)` from `src/judge/judge-parser.js`. -/
def extractRanking (text : Str) (modelNames : List Str) : List Str :=
  match firstSection ("Final Ranking".data) text with
  | none => []
  | some block =>
    (splitLinesJS block).filterMap (fun line =>
      (lineRankName line).map (fun raw =>
        let name := removeStars (trimJS raw)
        match modelNames.find? (fun mn =>
            occursB (lowerStr mn) (lowerStr name) ||
            occursB (lowerStr name) (lowerStr mn)) with
        | some known => known
        | none => name))

/-- Model: `ModelScore` (the typedef in `src/judge/judge-parser.js`). -/
structure ModelScore where
  modelName : Str
  accuracy : Nat
  depth : Nat
  clarity : Nat
  reasoning : Nat
  relevance : Nat
  total : Nat
  justification : Str
deriving DecidableEq

/-- Model: `JudgeResult` (the typedef in `src/judge/judge-parser.js`). -/
structure JudgeResult where
  parsed : Bool
  scores : List ModelScore
  ranking : List Str
  winner : Str
  summary : Str
  rawText : Str
deriving DecidableEq

/-- Model: `extractModelScore(text, modelName)` from `src/judge/judge-parser.js`.
`reasoning` uses JS `||`: the `Logical Reasoning` value is kept unless it is
`0` (falsy), in which case the bare `Reasoning` pattern is tried. -/
def extractModelScore (text modelName : Str) : Option ModelScore :=
  match firstSection modelName text with
  | none => none
  | some block =>
    let accuracy := extractScoreJS block ("Accuracy".data)
    let depth := extractScoreJS block ("Depth".data)
    let clarity := extractScoreJS block ("Clarity".data)
    let reasoning :=
      let a := extractScoreJS block ("Logical Reasoning".data)
      if a ≠ 0 then a else extractScoreJS block ("Reasoning".data)
    let relevance := extractScoreJS block ("Relevance".data)
    let total :=
      match statedTotal block with
      | some k => k
      | none => accuracy + depth + clarity + reasoning + relevance
    let justification := ((firstJust block).map trimJS).getD []
    some { modelName, accuracy, depth, clarity, reasoning, relevance, total,
           justification }

/-- Model: `parseJudgeResponse(rawText, modelNames)` from
`src/judge/judge-parser.js`.  The JS body never throws (its `try` block only
runs total regex/string operations), so the embedding is a total function;
`parsed` is set to `scores.length > 0` exactly as in the source. -/
def parseJudgeResponse (rawText : Str) (modelNames : List Str) : JudgeResult :=
  let scores := modelNames.filterMap (extractModelScore rawText)
  let ranking := extractRanking rawText modelNames
  let winner :=
    match firstWinner rawText with
    | some w => removeStars (trimJS w)
    | none =>
      match ranking with
      | r :: _ => r
      | [] => []
  let summary := ((firstSumm rawText).map trimJS).getD []
  { parsed := !scores.isEmpty, scores, ranking, winner, summary, rawText }

/-! ## Evaluation Prompt Builder (`src/judge/judge-engine.js`) -/

/-- A council result record as consumed by `buildEvaluationPrompt`
(`{modelId, modelName, response, status}`; `response` is `none` for JS
`null`). -/
structure ResponseRecord where
  modelId : Str
  modelName : Str
  response : Option Str
  status : Str
deriving DecidableEq

/-- The JS truthiness test `r.response && r.status === complete` that
partitions the results: the response must be non-null and non-empty (the
empty string is falsy in JS), and the status must be exactly `complete`. -/
def isResponded (r : ResponseRecord) : Bool :=
  (match r.response with
   | some resp => !resp.isEmpty
   | none => false) && r.status == ("complete").data

/-- The `respondedModels` list built by `buildEvaluationPrompt`: the
`(name, response)` pairs of the responded records, in input order. -/
def respondedModels (responses : List ResponseRecord) : List (Str × Str) :=
  (responses.filter isResponded).map (fun r => (r.modelName, r.response.getD []))

/-- The `failedModels` list: display names of all other records, in order. -/
def failedModels (responses : List ResponseRecord) : List Str :=
  (responses.filter (fun r => !isResponded r)).map (·.modelName)

/-- Model: `String.fromCharCode(65 + i)`: the anonymization label of position `i`. -/
def labelCh (i : Nat) : Char := Char.ofNat (65 + i)

/-- Model: `Array.prototype.join(comma-space)`. -/
def joinComma : List Str → Str
  | [] => []
  | [s] => s
  | s :: rest => s ++ (", ").data ++ joinComma rest

/-- The labeled response sections of the responses block:
`<name> (Response <label>):\n<response>\n\n` for each responded model, with
labels assigned consecutively from position `i`. -/
def responseSections : List (Str × Str) → Nat → Str
  | [], _ => []
  | (name, resp) :: rest, i =>
    name ++ (" (Response ").data ++ [labelCh i] ++ ("):\n").data ++ resp ++
    ("\n\n").data ++ responseSections rest (i + 1)

/-- The `responsesBlock` string: optional failed-model disclaimer, header,
then the labeled responses. -/
def responsesBlockOf (responses : List ResponseRecord) : Str :=
  (if (failedModels responses).isEmpty then []
   else ("Note: The following models did not provide a response: ").data ++
        joinComma (failedModels responses) ++
        (". Exclude them from evaluation.\n\n").data) ++
  ("Here are the responses from different council models:\n\n").data ++
  responseSections (respondedModels responses) 0

/-- JS `GetSubstitution` for a string replacement with no capture groups:
`$$`, `$&` (the matched text), `$` + backquote (the subject before the
match) and `$` + quote (the subject after the match) are special; every
other character is copied literally. -/
def gsub (matched before after : Str) : Str → Str
  | [] => []
  | c :: t =>
    if c = '$' then
      match t with
      | [] => ['$']
      | d :: t2 =>
        if d = '$' then '$' :: gsub matched before after t2
        else if d = '&' then matched ++ gsub matched before after t2
        else if d.toNat = 96 then before ++ gsub matched before after t2
        else if d.toNat = 39 then after ++ gsub matched before after t2
        else '$' :: d :: gsub matched before after t2
    else c :: gsub matched before after t

/-- The global-replace scan of `subject.replace(/<literal>/gi, repl)`:
leftmost, non-overlapping, left to right; `before` accumulates the subject
prefix already scanned (the substitution context).  Fuel is one unit per
subject position, so `replaceCI` below always supplies enough. -/
def replaceGo (pat repl : Str) : Nat → Str → Str → Str
  | 0, s, _ => s
  | _ + 1, [], _ => []
  | fuel + 1, s@(c :: rest), before =>
    if !pat.isEmpty && ciStartsWith pat s then
      gsub (s.take pat.length) before (s.drop pat.length) repl ++
        replaceGo pat repl fuel (s.drop pat.length) (before ++ s.take pat.length)
    else c :: replaceGo pat repl fuel rest (before ++ [c])

/-- Model: `subject.replace(/<pat as literal text>/gi, repl)`. -/
def replaceCI (subject pat repl : Str) : Str :=
  replaceGo pat repl subject.length subject []

/-- Model: `DEFAULT_JUDGE_PROMPT`, constant segment before `{question}`. -/
def defaultPromptPart1 : Str :=
  ("You are the Chairman of an LLM Council. Multiple AI models have provided responses to a user\x27s question. Your job is to objectively evaluate, rank, and synthesize the best possible answer.\n\nOriginal Question: ").data

/-- Model: `DEFAULT_JUDGE_PROMPT`, constant segment between the placeholders. -/
def defaultPromptPart2 : Str := ("\n\n").data

/-- Model: `DEFAULT_JUDGE_PROMPT`, constant segment after `{responses}`. -/
def defaultPromptPart3 : Str :=
  ("\n\n---\n\nYOUR TASK AS CHAIRMAN:\n\n1. First, evaluate each response individually. For each response, explain what it does well and what it does poorly.\n\n2. Score each response from 1–10 on the following criteria:\n   - Accuracy: Is the information correct and factual?\n   - Depth: Does it cover the topic thoroughly?\n   - Clarity: Is it well-written and easy to understand?\n   - Logical Reasoning: Is the reasoning sound and well-structured?\n   - Relevance: Does it directly address the user\x27s question?\n\n3. You must evaluate objectively. Do not favor any response. Do not bias toward stylistic similarity. Score purely on reasoning quality and correctness.\n\n4. Consider:\n   - The individual responses and their unique insights\n   - Any patterns of agreement or disagreement between responses\n   - What each response reveals about response quality\n\nIMPORTANT: Return the evaluation in this EXACT format:\n\n## Evaluation Results\n\nFor each model, provide:\n### [Model Name]\n| Criterion | Score |\n|-----------|-------|\n| Accuracy | X/10 |\n| Depth | X/10 |\n| Clarity | X/10 |\n| Logical Reasoning | X/10 |\n| Relevance | X/10 |\n| **Total** | **XX/50** |\n\n**Justification:** [Your analysis]\n\n### Final Ranking\n1. [Model Name] — XX/50\n\n### Winner: [Model Name]\n**Summary:** [Why this response best represents the council\x27s collective wisdom]").data

/-- Model: `DEFAULT_JUDGE_PROMPT` from `src/judge/judge-engine.js`: the source
template literal, written as its three constant segments around the
`{question}` and `{responses}` placeholders. -/
def DEFAULT_JUDGE_PROMPT : Str :=
  defaultPromptPart1 ++ ("{question}").data ++ defaultPromptPart2 ++
  ("{responses}").data ++ defaultPromptPart3

/-- Model: `buildEvaluationPrompt(originalPrompt, responses, customPrompt)` from
`src/judge/judge-engine.js`.  `customPrompt && customPrompt.trim()` is JS
truthiness: a non-null, nonempty custom prompt whose trim is nonempty
selects the custom template, otherwise the default is used; then both
placeholders are replaced globally and case-insensitively, the responses
block being trimmed. -/
def buildEvaluationPrompt (originalPrompt : Str) (responses : List ResponseRecord)
    (customPrompt : Option Str) : Str :=
  let template :=
    match customPrompt with
    | some cp =>
      if !cp.isEmpty && !(trimJS cp).isEmpty then cp else DEFAULT_JUDGE_PROMPT
    | none => DEFAULT_JUDGE_PROMPT
  replaceCI (replaceCI template (("{question}").data) originalPrompt)
    (("{responses}").data) (trimJS (responsesBlockOf responses))

/-! ## Orchestration (`src/background/service-worker.js` and the dashboard
pipeline `handleSubmit`) -/

/-- Model: `RESPONSE_STATUS` from `src/utils/constants.js`. -/
inductive AgentStatus
  | pending
  | injecting
  | waiting
  | complete
  | failed
  | timeout
deriving DecidableEq

/-- A per-agent entry of `councilState.responses` (the fields the injection
and polling loops read and write). -/
structure CouncilEntry where
  modelId : Str
  modelName : Str
  tabId : Option Nat
  status : AgentStatus
  response : Option Str
deriving DecidableEq

/-- The statuses that are terminal for an agent within a run. -/
def isTerminal : AgentStatus → Bool
  | .complete => true
  | .failed => true
  | .timeout => true
  | _ => false

/-- One iteration of the injection loop (service worker, step 5) on one
model entry: entries already `failed` or without a tab are skipped
(`continue`); otherwise the status passes through `injecting` and ends
`waiting` on delivery success or `failed` on delivery error.  `inj id`
gives the delivery outcome for that model. -/
def injectStep (inj : Str → Bool) (r : CouncilEntry) : CouncilEntry :=
  if r.status = .failed ∨ r.tabId = none then r
  else if inj r.modelId then { r with status := .waiting }
  else { r with status := .failed }

/-- The injection loop over all council entries, in list order. -/
def injectLoop (inj : Str → Bool) (rs : List CouncilEntry) : List CouncilEntry :=
  rs.map (injectStep inj)

/-- One observable per-agent action of the polling loop
(`waitForAllResponses`): a successful extraction for one model, or the
council deadline expiring for one model. -/
inductive PollEvent
  | completed (id : Str) (resp : Str)
  | timedOut (id : Str)

/-- The effect of one polling action on one entry: every branch of
`waitForAllResponses` mutates an entry only while its status is still
`waiting`. -/
def pollUpd (e : PollEvent) (r : CouncilEntry) : CouncilEntry :=
  match e with
  | .completed id resp =>
    if r.modelId = id ∧ r.status = .waiting then
      { r with status := .complete, response := some resp }
    else r
  | .timedOut id =>
    if r.modelId = id ∧ r.status = .waiting then { r with status := .timeout }
    else r

/-- Applying one polling action to the entry list. -/
def pollStep (rs : List CouncilEntry) (e : PollEvent) : List CouncilEntry :=
  rs.map (pollUpd e)

/-- A polling history applied in order. -/
def applyPolls (rs : List CouncilEntry) (events : List PollEvent) : List CouncilEntry :=
  events.foldl pollStep rs

/-- The status recorded for a model id. -/
def statusOf (rs : List CouncilEntry) (id : Str) : Option AgentStatus :=
  (rs.find? (fun r => r.modelId == id)).map (·.status)

/-- The orchestrator states of one run after tab opening: position `0` is
the initial state (step 2, statuses `pending` or `failed`), position `1`
is after the injection loop (step 5), and position `1 + k` is after the
first `k` polling actions (step 6). -/
def stateAt (init : List CouncilEntry) (inj : Str → Bool)
    (events : List PollEvent) : Nat → List CouncilEntry
  | 0 => init
  | k + 1 => applyPolls (injectLoop inj init) (events.take k)

/-- Step 7 of `handleAskCouncil`: the completed subset of the per-model
records (`status === RESPONSE_STATUS.COMPLETE`). -/
def completedOf (rs : List ResponseRecord) : List ResponseRecord :=
  rs.filter (fun r => r.status == ("complete").data)

/-- The two continuations of the post-council branch. -/
inductive CouncilPostStep
  | abortNoResponses
  | invokeJudge (evalPrompt : Str)
deriving DecidableEq

/-- The post-council branch of `handleAskCouncil` (both service-worker
variants): with zero completed responses the run stops with the
no-responses report (the judge step is never reached); otherwise the
evaluation prompt is built from the full records array and the run
proceeds to the judge. -/
def councilPostStep (prompt : Str) (responsesArray : List ResponseRecord) :
    CouncilPostStep :=
  if (completedOf responsesArray).isEmpty then .abortNoResponses
  else .invokeJudge (buildEvaluationPrompt prompt responsesArray none)

/-- Model: `Array.prototype.join` with the dashed separator. -/
def joinDashSep : List Str → Str
  | [] => []
  | [s] => s
  | s :: rest => s ++ ("\n\n---\n\n").data ++ joinDashSep rest

/-- The fallback raw text of the dashboard pipeline:
`completed.map(r => modelName + colon-newline + response)` joined with the dashed separator,
over the completed `(name, response)` pairs. -/
def fallbackRawText (completed : List (Str × Str)) : Str :=
  joinDashSep (completed.map (fun p => p.1 ++ (":\n").data ++ p.2))

/-- What the dashboard judge phase can observe. -/
inductive JudgePhaseOutcome
  | panelUnavailable
  | deliveryFailed
  | timedOut
  | answered (text : Str)

/-- The result object the dashboard shows: a parsed judge result, or the
literal fallback object `{parsed: false, rawText}`. -/
inductive DashResult
  | judged (r : JudgeResult)
  | raw (parsed : Bool) (rawText : Str)
deriving DecidableEq

/-- The judge phase of the dashboard pipeline (`handleSubmit`): a missing
or failed judge panel, a delivery that throws after its three attempts,
and a null poll result all set
`lastResult = {parsed: false, rawText: <joined completed responses>}` and
show it; a delivered verdict is parsed with the completed model names. -/
def dashJudgePhase (completed : List (Str × Str)) (outcome : JudgePhaseOutcome) :
    DashResult :=
  match outcome with
  | .panelUnavailable => .raw false (fallbackRawText completed)
  | .deliveryFailed => .raw false (fallbackRawText completed)
  | .timedOut => .raw false (fallbackRawText completed)
  | .answered t => .judged (parseJudgeResponse t (completed.map Prod.fst))

/-- End states of one dashboard `handleSubmit` run after frame discovery. -/
inductive SubmitEnd
  | noInjection
  | noResponses
  | shown (r : DashResult)
deriving DecidableEq

/-- Model: `handleSubmit` after the injection loop: the early returns at
`injectedCount === 0` and `completed.length === 0`, then the judge phase. -/
def dashSubmitEnd (injectedCount : Nat) (completed : List (Str × Str))
    (outcome : JudgePhaseOutcome) : SubmitEnd :=
  if injectedCount = 0 then .noInjection
  else if completed.isEmpty then .noResponses
  else .shown (dashJudgePhase completed outcome)

/-- What the background service worker emits at the end of its judge phase. -/
inductive SwEmission
  | resultEvent (r : JudgeResult)
  | errorEvent (msg : Str)
deriving DecidableEq

/-- Steps 8–10 of the service-worker pipeline together with its `catch`:
a delivered judge response is parsed and broadcast as a result; when
`pollForResponse` exhausts its deadline it throws `Judge response timeout`,
which the surrounding catch turns into an error broadcast — this variant
synthesizes no fallback result. -/
def swJudgePhase (completed : List (Str × Str)) (poll : Option Str) : SwEmission :=
  match poll with
  | some t => .resultEvent (parseJudgeResponse t (completed.map Prod.fst))
  | none => .errorEvent ("Judge response timeout").data

/-- Model: `DEFAULTS.MIN_COUNCIL` from `src/utils/constants.js`. -/
def MIN_COUNCIL : Nat := 2

/-- Model: `DEFAULTS.MAX_COUNCIL` from `src/utils/constants.js`. -/
def MAX_COUNCIL : Nat := 4

/-- What the popup submit handler does. -/
inductive SubmitAction
  | noAction
  | overlapError
  | send (councilModels : List Str)
deriving DecidableEq

/-- Model: `handleAskCouncil` from `src/popup/popup.js`: trims the prompt and
returns silently when it is empty or fewer than `MIN_COUNCIL` models are
selected; filters the judge out of the broadcast targets and reports an
error when fewer than `MIN_COUNCIL` remain; otherwise sends `ASK_COUNCIL`
with the targets.  No upper bound is checked at submission. -/
def popupHandleAskCouncil (promptInput : Str) (selectedCouncil : List Str)
    (selectedJudge : Str) : SubmitAction :=
  let prompt := trimJS promptInput
  if prompt.isEmpty then .noAction
  else if selectedCouncil.length < MIN_COUNCIL then .noAction
  else
    let broadcastTargets := selectedCouncil.filter (fun id => id != selectedJudge)
    if broadcastTargets.length < MIN_COUNCIL then .overlapError
    else .send broadcastTargets

/-- Model: `toggleCouncilModel` from `src/popup/popup.js` (the selection UI): a
selected model is deselected; a new model is added only while the
selection is below `MAX_COUNCIL`. -/
def toggleCouncilModel (selected : List Str) (modelId : Str) : List Str :=
  if selected.contains modelId then selected.erase modelId
  else if MAX_COUNCIL ≤ selected.length then selected
  else selected ++ [modelId]

/-! ## C1: round-trip of the builder template and the parser

`handCompletedDoc ns` fills in, for the completed display names `ns`, the
literal output format that `DEFAULT_JUDGE_PROMPT` (and hence every prompt
produced by the two-argument `buildEvaluationPrompt`) demands of the judge:
one `### <display name>` section per completed agent with every criterion
scored 7/10 and the stated total `**35/50**`, then the `### Final Ranking`,
`### Winner:` and `**Summary:**` blocks. -/

/-- The digit character of rank `i + 1` (ranks 1–4 here). -/
def digitCh (i : Nat) : Char := Char.ofNat (49 + i)

/-- One completed `### <name>` section of the judge template, with every
criterion scored 7/10 and the total stated as 35/50. -/
def scoreSection7 (name : Str) : Str :=
  ("### ").data ++ name ++
  ("\n| Criterion | Score |\n|-----------|-------|\n| Accuracy | 7/10 |\n| Depth | 7/10 |\n| Clarity | 7/10 |\n| Logical Reasoning | 7/10 |\n| Relevance | 7/10 |\n| **Total** | **35/50** |\n\n**Justification:** Good.\n\n").data

/-- The `### Final Ranking` lines, `<rank>. <name> — 35/50`. -/
def rankLines7 : List Str → Nat → Str
  | [], _ => []
  | n :: rest, i =>
    [digitCh i] ++ (". ").data ++ n ++ (" — 35/50\n").data ++ rankLines7 rest (i + 1)

/-- The hand-completed judge answer for completed display names `ns`,
following the literal output template of `DEFAULT_JUDGE_PROMPT`. -/
def handCompletedDoc (ns : List Str) : Str :=
  ("## Evaluation Results\n\n").data ++
  (ns.map scoreSection7).flatten ++
  ("### Final Ranking\n").data ++ rankLines7 ns 0 ++
  ("\n### Winner: ").data ++ ns.headD [] ++ ("\n**Summary:** Good.").data

/-- The `ModelScore` that the parser must recover for `n` from the
hand-completed document. -/
def score7 (n : Str) : ModelScore :=
  { modelName := n, accuracy := 7, depth := 7, clarity := 7, reasoning := 7,
    relevance := 7, total := 35, justification := ("Good.").data }

/-- The display names of the four supported agents
(`MODELS` in `src/utils/constants.js`). -/
def canonNames : List Str :=
  [("ChatGPT").data, ("Gemini").data, ("Perplexity").data, ("Grok").data]

/-- All ordered selections of `k` distinct entries of `pool`. -/
def pickLists : Nat → List Str → List (List Str)
  | 0, _ => [[]]
  | k + 1, pool => pool.flatMap (fun n => (pickLists k (pool.erase n)).map (n :: ·))

/-- Well-formedness domain of the round-trip claim: the completed display
names form a nonempty list of distinct supported-agent names (in any
order), as produced by any run of the pipeline. -/
def c1NameLists : List (List Str) :=
  pickLists 1 canonNames ++ pickLists 2 canonNames ++
  pickLists 3 canonNames ++ pickLists 4 canonNames

/-- One round-trip instance: parsing the hand-completed document with the
completed names recovers exactly the all-7 scores (and `parsed`). -/
def c1Check (ns : List Str) : Bool :=
  decide ((parseJudgeResponse (handCompletedDoc ns) ns).scores = ns.map score7) &&
  (parseJudgeResponse (handCompletedDoc ns) ns).parsed

/-- The display names (in order) of the responded records — the name list
the orchestrator hands to `parseJudgeResponse`. -/
def respondedNames (responses : List ResponseRecord) : List Str :=
  (respondedModels responses).map Prod.fst

/-- Concrete all-failed council round for the C3 witness. -/
def c3WitnessResults : List ResponseRecord :=
  [{ modelId := ("chatgpt").data, modelName := ("ChatGPT").data,
     response := none, status := ("failed").data },
   { modelId := ("gemini").data, modelName := ("Gemini").data,
     response := none, status := ("timeout").data }]

/-- A section whose stated total (49) disagrees with the sum of its
criteria (17): the stated total wins. -/
def c5WitnessText : Str :=
  ("### Grok\n| Accuracy | 9/10 |\n| Depth | 8/10 |\n| **Total** | **49/50** |").data

/-- The score the parser recovers from `c5WitnessText`. -/
def c5WitnessScore : ModelScore :=
  { modelName := ("Grok").data, accuracy := 9, depth := 8, clarity := 0,
    reasoning := 0, relevance := 0, total := 49, justification := [] }

/-- A conforming judge text for the C4 witness. -/
def c4WitnessText : Str :=
  ("### Gemini\n| Accuracy | 7/10 |\n| Depth | 7/10 |\n| Clarity | 7/10 |\n| Logical Reasoning | 7/10 |\n| Relevance | 7/10 |\n| **Total** | **35/50** |").data

/-- The score the parser recovers from `c4WitnessText`. -/
def c4WitnessScore : ModelScore :=
  { modelName := ("Gemini").data, accuracy := 7, depth := 7, clarity := 7,
    reasoning := 7, relevance := 7, total := 35, justification := [] }

/-- Initial entries for the C9 witness: one agent failed at tab opening,
one pending. -/
def c9WitnessInit : List CouncilEntry :=
  [{ modelId := ("chatgpt").data, modelName := ("ChatGPT").data,
     tabId := none, status := AgentStatus.failed, response := none },
   { modelId := ("gemini").data, modelName := ("Gemini").data,
     tabId := some 7, status := AgentStatus.pending, response := none }]

/-- A polling history for the C9 witness. -/
def c9WitnessEvents : List PollEvent :=
  [PollEvent.completed ("gemini").data ("Hi.").data,
   PollEvent.timedOut ("chatgpt").data]

/-- The pattern has a case-insensitive match somewhere in the text. -/
def hasMatchCI (pat : Str) : Str → Bool
  | [] => ciStartsWith pat []
  | s@(_ :: rest) => ciStartsWith pat s || hasMatchCI pat rest


/-- The constant template tail after the `{question}` placeholder. -/
def questionTail : Str :=
  defaultPromptPart2 ++ ("{responses}").data ++ defaultPromptPart3

/-- No match of `pat` begins at any position inside the prefix `X` of the
subject `X ++ Y` (matches may straddle into `Y`). -/
def noMatchPfx (pat : Str) : Str → Str → Bool
  | [], _ => true
  | c :: X, Y => !(ciStartsWith pat (c :: (X ++ Y))) && noMatchPfx pat X Y

/-- Dollar-freeness of the inputs of one record. -/
def dollarFree (r : ResponseRecord) : Prop :=
  '$' ∉ r.modelName ∧ ∀ resp, r.response = some resp → '$' ∉ resp

/-- The failed-agent disclaimer sentence of the responses block. -/
def disclaimerFor (failed : List Str) : Str :=
  ("Note: The following models did not provide a response: ").data ++
  joinComma failed ++ (". Exclude them from evaluation.").data

/-- Concrete records for the C7 witness: one completed, one failed. -/
def c7WitnessResults : List ResponseRecord :=
  [{ modelId := ("chatgpt").data, modelName := ("ChatGPT").data,
     response := some ("Paris.").data, status := ("complete").data },
   { modelId := ("grok").data, modelName := ("Grok").data,
     response := none, status := ("timeout").data }]

/-- Concrete record for the C10 counterexample. -/
def c10CounterResults : List ResponseRecord :=
  [{ modelId := ("chatgpt").data, modelName := ("ChatGPT").data,
     response := some ("Paris.").data, status := ("complete").data }]

/-- Concrete record for the C10 witness. -/
def c10WitnessResults : List ResponseRecord :=
  [{ modelId := ("gemini").data, modelName := ("Gemini").data,
     response := some ("It is Paris.").data, status := ("complete").data }]

/-- Concrete witness records for the round-trip claim: two completed
agents, one failed agent. -/
def c1WitnessResults : List ResponseRecord :=
  [{ modelId := ("chatgpt").data, modelName := ("ChatGPT").data,
     response := some ("Paris is the capital of France.").data,
     status := ("complete").data },
   { modelId := ("gemini").data, modelName := ("Gemini").data,
     response := some ("The capital of France is Paris.").data,
     status := ("complete").data },
   { modelId := ("grok").data, modelName := ("Grok").data,
     response := none, status := ("failed").data }]

theorem startsWithB_iff (t s : Str) : startsWithB t s = true ↔ ∃ y, s = t ++ y := by
  induction t generalizing s with
  | nil => simp [startsWithB]
  | cons p ps ih =>
    cases s with
    | nil => simp [startsWithB]
    | cons c cs =>
      simp only [startsWithB, Bool.and_eq_true, beq_iff_eq, ih, List.cons_append]
      constructor
      · rintro ⟨rfl, y, rfl⟩; exact ⟨y, rfl⟩
      · rintro ⟨y, h⟩
        rw [List.cons_eq_cons] at h
        exact ⟨h.1.symm, y, h.2⟩

theorem occurs_iff_occursB (t s : Str) : Occurs t s ↔ occursB t s = true := by
  induction s with
  | nil =>
    simp only [occursB, startsWithB_iff, Occurs]
    constructor
    · rintro ⟨x, y, h⟩
      rw [List.append_assoc] at h
      obtain ⟨h1, h2⟩ := List.append_eq_nil.mp h.symm
      exact ⟨y, h2.symm⟩
    · rintro ⟨y, h⟩; exact ⟨[], y, by simpa using h⟩
  | cons c cs ih =>
    simp only [occursB, Bool.or_eq_true, startsWithB_iff]
    constructor
    · rintro ⟨x, y, h⟩
      cases x with
      | nil => exact Or.inl ⟨y, by simpa using h⟩
      | cons a as =>
        right
        rw [← ih]
        simp only [List.cons_append, List.cons_eq_cons] at h
        exact ⟨as, y, h.2⟩
    · rintro (⟨y, h⟩ | h)
      · exact ⟨[], y, by simpa using h⟩
      · obtain ⟨x, y, h⟩ := ih.mpr h
        exact ⟨c :: x, y, by simp [h]⟩

theorem occurs_cons {t s : Str} (c : Char) (h : Occurs t s) : Occurs t (c :: s) := by
  obtain ⟨x, y, rfl⟩ := h
  exact ⟨c :: x, y, rfl⟩

theorem occurs_append_left {t s : Str} (x : Str) (h : Occurs t s) : Occurs t (x ++ s) := by
  induction x with
  | nil => simpa using h
  | cons c cs ih => exact occurs_cons c ih

theorem occurs_append_right {t s : Str} (y : Str) (h : Occurs t s) : Occurs t (s ++ y) := by
  obtain ⟨a, b, rfl⟩ := h
  exact ⟨a, b ++ y, by simp⟩

theorem occurs_refl (t : Str) : Occurs t t := ⟨[], [], by simp⟩

theorem occurs_trans {a b c : Str} (h1 : Occurs a b) (h2 : Occurs b c) : Occurs a c := by
  obtain ⟨x1, y1, rfl⟩ := h1
  obtain ⟨x2, y2, rfl⟩ := h2
  exact ⟨x2 ++ x1, y1 ++ y2, by simp⟩

/-! ## Claim theorems: orchestration -/

/-- C3. For every run whose council round ends with zero agents in
status `complete`, the post-council branch terminates the run reporting no
usable responses and the judge step is skipped entirely: no evaluation
prompt is built and nothing is delivered to the judge session. -/
theorem c3_zero_complete_skips_judge (prompt : Str)
    (responsesArray : List ResponseRecord)
    (h : completedOf responsesArray = []) :
    councilPostStep prompt responsesArray = CouncilPostStep.abortNoResponses := by
  simp [councilPostStep, h]

theorem c3_zero_complete_skips_judge_witness :
    completedOf c3WitnessResults = [] ∧
    councilPostStep ("Hello council").data c3WitnessResults =
      CouncilPostStep.abortNoResponses :=
  ⟨by decide, c3_zero_complete_skips_judge ("Hello council").data
     c3WitnessResults (by decide)⟩

/-- C2 (amended). In the dashboard pipeline (`handleSubmit`), whenever
at least one council agent completed (and at least one injection
succeeded), a judge that is unavailable, whose delivery throws after all
attempts, or that times out still ends the run with a shown result rather
than an error: the fallback object with `parsed = false` and `rawText` the
completed agent responses joined in order as `<name>:\n<response>` blocks
separated by `\n\n---\n\n`.  (The background service-worker pipeline
instead surfaces a judge timeout as an error broadcast — see the
counterexample.) -/
theorem c2_dashboard_judge_fallback (injectedCount : Nat)
    (completed : List (Str × Str)) (outcome : JudgePhaseOutcome)
    (hinj : injectedCount ≠ 0) (hc : completed ≠ [])
    (hfail : outcome = JudgePhaseOutcome.panelUnavailable ∨
      outcome = JudgePhaseOutcome.deliveryFailed ∨
      outcome = JudgePhaseOutcome.timedOut) :
    dashSubmitEnd injectedCount completed outcome =
      SubmitEnd.shown (DashResult.raw false (fallbackRawText completed)) := by
  rcases hfail with rfl | rfl | rfl <;>
    simp [dashSubmitEnd, dashJudgePhase, hinj, List.isEmpty_iff, hc]

/-- Counterexample to C2 as stated: in the background service-worker
pipeline, with one completed agent and a judge timeout, the run ends with
the `Judge response timeout` error event — no fallback result with the
concatenated responses is emitted. -/
theorem c2_counterexample_sw_timeout_is_error :
    swJudgePhase [(("ChatGPT").data, ("Hi.").data)] none =
      SwEmission.errorEvent ("Judge response timeout").data := rfl

theorem c2_dashboard_judge_fallback_witness :
    dashSubmitEnd 2 [(("ChatGPT").data, ("Paris.").data),
        (("Gemini").data, ("It is Paris.").data)] JudgePhaseOutcome.timedOut =
      SubmitEnd.shown (DashResult.raw false
        (("ChatGPT:\nParis.\n\n---\n\nGemini:\nIt is Paris.").data)) := by
  have h := c2_dashboard_judge_fallback 2
    [(("ChatGPT").data, ("Paris.").data), (("Gemini").data, ("It is Paris.").data)]
    JudgePhaseOutcome.timedOut (by decide) (by decide) (Or.inr (Or.inr rfl))
  rw [h]
  decide

/-- Counterexample to C8 as stated: a submission with five council ids
is not rejected — the popup submit handler sends `ASK_COUNCIL` with all
five models, starting the run.  (Only the lower bound is checked at
submission; the upper bound exists only in the selection UI.) -/
theorem c8_counterexample_five_ids_accepted :
    popupHandleAskCouncil ("Hello").data
      [("chatgpt").data, ("gemini").data, ("perplexity").data, ("grok").data,
       ("claude").data] (("mistral").data) =
    SubmitAction.send
      [("chatgpt").data, ("gemini").data, ("perplexity").data, ("grok").data,
       ("claude").data] := by decide

/-- C8 (amended). A submission whose council id list has fewer than 2
entries is rejected synchronously by the submit handler — no `ASK_COUNCIL`
message is sent, so no run starts, no session or tab opens, and no prompt
is delivered; the 4-model cap is enforced only at selection time: a new
model is never added to a selection that already has `MAX_COUNCIL`
entries.  The submit handler itself checks no upper bound. -/
theorem c8_submit_guard (promptInput : Str) (ids : List Str) (judge : Str)
    (selected : List Str) (newId : Str)
    (hlt : ids.length < MIN_COUNCIL)
    (hfull : MAX_COUNCIL ≤ selected.length)
    (hnew : selected.contains newId = false) :
    popupHandleAskCouncil promptInput ids judge = SubmitAction.noAction ∧
    toggleCouncilModel selected newId = selected := by
  constructor
  · simp [popupHandleAskCouncil, hlt, ite_self]
  · simp only [toggleCouncilModel]
    rw [hnew]
    simp [hfull]

theorem c8_submit_guard_witness :
    popupHandleAskCouncil ("Hello").data [("chatgpt").data] (("gemini").data) =
      SubmitAction.noAction ∧
    toggleCouncilModel
      [("chatgpt").data, ("gemini").data, ("perplexity").data, ("grok").data]
      (("claude").data) =
      [("chatgpt").data, ("gemini").data, ("perplexity").data, ("grok").data] :=
  c8_submit_guard ("Hello").data [("chatgpt").data] (("gemini").data)
    [("chatgpt").data, ("gemini").data, ("perplexity").data, ("grok").data]
    (("claude").data) (by decide) (by decide) (by decide)

/-! ## Claim theorems: parser -/

/-- Helper: every score produced by `extractModelScore` carries the queried
name, and its total is the stated `/50` value when one is present in the
section, otherwise the sum of the five criterion scores. -/
theorem extract_total_eq (text name : Str) (s : ModelScore)
    (h : extractModelScore text name = some s) :
    s.modelName = name ∧
    s.total = ((firstSection name text).bind statedTotal).getD
      (s.accuracy + s.depth + s.clarity + s.reasoning + s.relevance) := by
  unfold extractModelScore at h
  cases hfs : firstSection name text with
  | none => rw [hfs] at h; exact absurd h (by simp)
  | some block =>
    rw [hfs] at h
    simp only [Option.some.injEq] at h
    subst h
    refine ⟨rfl, ?_⟩
    cases hst : statedTotal block <;> simp [hst]

/-- C6. `parseJudgeResponse` is total (the source try-block runs only
total regex and string operations, so it never throws); the input text is
retained verbatim in `rawText`; `parsed` holds iff at least one model
score was recovered; and a text in which no known name has a matching
subsection yields `parsed = false` with an empty score list. -/
theorem c6_parse_never_throws (rawText : Str) (modelNames : List Str) :
    (parseJudgeResponse rawText modelNames).rawText = rawText ∧
    ((parseJudgeResponse rawText modelNames).parsed = true ↔
      (parseJudgeResponse rawText modelNames).scores ≠ []) ∧
    ((∀ n ∈ modelNames, firstSection n rawText = none) →
      (parseJudgeResponse rawText modelNames).parsed = false ∧
      (parseJudgeResponse rawText modelNames).scores = []) := by
  refine ⟨rfl, ?_, ?_⟩
  · simp only [parseJudgeResponse]
    cases modelNames.filterMap (extractModelScore rawText) <;> simp
  · intro h
    have hs : modelNames.filterMap (extractModelScore rawText) = [] := by
      rw [List.filterMap_eq_nil]
      intro n hn
      simp [extractModelScore, h n hn]
    simp [parseJudgeResponse, hs]

theorem c6_parse_never_throws_witness :
    (parseJudgeResponse ("no sections in this text").data
      [("ChatGPT").data, ("Gemini").data]).parsed = false ∧
    (parseJudgeResponse ("no sections in this text").data
      [("ChatGPT").data, ("Gemini").data]).scores = [] :=
  (c6_parse_never_throws ("no sections in this text").data
    [("ChatGPT").data, ("Gemini").data]).2.2 (by decide)

/-- C5. For every model subsection parsed by `extractModelScore`, the
total equals the sum of the five extracted criterion scores unless the
section contains an explicitly stated `Total ... <digits> / 50`, in which
case the stated digits become the total even when they disagree with the
sum of the criteria. -/
theorem c5_total_stated_beats_sum (text name : Str) (s : ModelScore)
    (h : extractModelScore text name = some s) :
    s.total = ((firstSection name text).bind statedTotal).getD
      (s.accuracy + s.depth + s.clarity + s.reasoning + s.relevance) :=
  (extract_total_eq text name s h).2

set_option maxRecDepth 2000000 in
theorem c5_total_stated_beats_sum_witness :
    extractModelScore c5WitnessText (("Grok").data) = some c5WitnessScore ∧
    c5WitnessScore.total =
      ((firstSection (("Grok").data) c5WitnessText).bind statedTotal).getD
        (c5WitnessScore.accuracy + c5WitnessScore.depth + c5WitnessScore.clarity +
          c5WitnessScore.reasoning + c5WitnessScore.relevance) ∧
    c5WitnessScore.total ≠
      c5WitnessScore.accuracy + c5WitnessScore.depth + c5WitnessScore.clarity +
        c5WitnessScore.reasoning + c5WitnessScore.relevance :=
  ⟨by decide,
   c5_total_stated_beats_sum c5WitnessText (("Grok").data) c5WitnessScore (by decide),
   by decide⟩

set_option maxRecDepth 2000000 in
/-- Counterexample to C4 as stated: a judge text whose only criterion
line awards `60/10` produces a score whose total is `60`, outside `0–50`
(the parser does not clamp). -/
theorem c4_counterexample_total_sixty :
    (parseJudgeResponse ("### Mint\n| Accuracy | 60/10 |").data
        [("Mint").data]).scores.map ModelScore.total = [60] ∧
    ¬ (60 ≤ 50) := by decide

/-- C4 (amended). For every judge text and list of `N` known display
names, the returned score list has length at most `N` (each name entry
contributes at most one model score, and a name with no matching
subsection contributes none); every returned total is a nonnegative
integer, and it lies within `0–50` whenever the five extracted criterion
scores are each at most 10 and any stated `/50` total is at most 50 — the
parser does not clamp values outside those ranges. -/
theorem c4_scores_length_and_totals (text : Str) (names : List Str) :
    (parseJudgeResponse text names).scores.length ≤ names.length ∧
    (∀ s ∈ (parseJudgeResponse text names).scores,
      s.accuracy ≤ 10 → s.depth ≤ 10 → s.clarity ≤ 10 → s.reasoning ≤ 10 →
      s.relevance ≤ 10 →
      (((firstSection s.modelName text).bind statedTotal).getD 0 ≤ 50) →
      s.total ≤ 50) := by
  constructor
  · simpa [parseJudgeResponse] using
      (List.length_filterMap_le (extractModelScore text) names)
  · intro s hs ha hd hc hr hrel hk
    have hmem : ∃ n ∈ names, extractModelScore text n = some s := by
      simpa [parseJudgeResponse] using List.mem_filterMap.mp
        (by simpa [parseJudgeResponse] using hs)
    obtain ⟨n, hn, he⟩ := hmem
    obtain ⟨hname, htot⟩ := extract_total_eq text n s he
    rw [hname] at hk
    cases hbind : (firstSection n text).bind statedTotal with
    | none => rw [htot, hbind]; simpa using by omega
    | some k =>
      rw [htot, hbind]
      rw [hbind] at hk
      simpa using hk

set_option maxRecDepth 2000000 in
theorem c4_scores_length_and_totals_witness :
    (parseJudgeResponse c4WitnessText [("Gemini").data]).scores.length ≤ 1 ∧
    c4WitnessScore.total ≤ 50 :=
  ⟨(c4_scores_length_and_totals c4WitnessText [("Gemini").data]).1,
   (c4_scores_length_and_totals c4WitnessText [("Gemini").data]).2 c4WitnessScore
     (by decide) (by decide) (by decide) (by decide) (by decide) (by decide)
     (by decide)⟩

/-! ## Claim theorems: per-agent state machine -/

/-- Helper: both polling branches preserve the model id. -/
theorem pollUpd_modelId (e : PollEvent) (r : CouncilEntry) :
    (pollUpd e r).modelId = r.modelId := by
  cases e with
  | completed eid resp =>
    by_cases h : r.modelId = eid ∧ r.status = AgentStatus.waiting <;>
      simp [pollUpd, h]
  | timedOut eid =>
    by_cases h : r.modelId = eid ∧ r.status = AgentStatus.waiting <;>
      simp [pollUpd, h]

/-- Helper: the injection step preserves the model id. -/
theorem injectStep_modelId (inj : Str → Bool) (r : CouncilEntry) :
    (injectStep inj r).modelId = r.modelId := by
  unfold injectStep
  split
  · rfl
  · split <;> rfl

/-- Helper: `find?` by model id commutes with mapping an id-preserving
update over the entries. -/
theorem find?_map_id_preserving (f : CouncilEntry → CouncilEntry)
    (hf : ∀ r, (f r).modelId = r.modelId) (rs : List CouncilEntry) (id : Str) :
    (rs.map f).find? (fun r => r.modelId == id) =
      (rs.find? (fun r => r.modelId == id)).map f := by
  induction rs with
  | nil => simp
  | cons r rest ih =>
    simp only [List.map_cons, List.find?, hf r]
    cases hid : (r.modelId == id) <;> simp [hid, ih]

/-- Helper: the status seen through an id-preserving map. -/
theorem statusOf_map (f : CouncilEntry → CouncilEntry)
    (hf : ∀ r, (f r).modelId = r.modelId) (rs : List CouncilEntry) (id : Str) :
    statusOf (rs.map f) id =
      (rs.find? (fun r => r.modelId == id)).map (fun r => (f r).status) := by
  unfold statusOf
  rw [find?_map_id_preserving f hf]
  cases rs.find? (fun r => r.modelId == id) <;> simp

/-- Helper: a terminal status is not `waiting`. -/
theorem terminal_ne_waiting (st : AgentStatus) (hterm : isTerminal st = true) :
    st ≠ AgentStatus.waiting := by
  cases st <;> simp [isTerminal] at hterm ⊢

/-- Helper: a polling action never changes an entry whose status is
terminal. -/
theorem statusOf_pollStep_terminal (rs : List CouncilEntry) (e : PollEvent)
    (id : Str) (st : AgentStatus) (hterm : isTerminal st = true)
    (h : statusOf rs id = some st) :
    statusOf (pollStep rs e) id = some st := by
  unfold statusOf at h
  obtain ⟨r, hfind, hst⟩ := Option.map_eq_some'.mp h
  have hcond : ¬ (r.status = AgentStatus.waiting) := by
    rw [hst]
    exact terminal_ne_waiting st hterm
  have hupd : pollUpd e r = r := by
    cases e <;> simp [pollUpd, hcond]
  rw [pollStep, statusOf_map (pollUpd e) (pollUpd_modelId e), hfind]
  simp [hupd, hst]

/-- Helper: a whole polling history never changes a terminal entry. -/
theorem statusOf_applyPolls_terminal (events : List PollEvent)
    (rs : List CouncilEntry) (id : Str) (st : AgentStatus)
    (hterm : isTerminal st = true) (h : statusOf rs id = some st) :
    statusOf (applyPolls rs events) id = some st := by
  induction events generalizing rs with
  | nil => simpa [applyPolls] using h
  | cons e es ih =>
    have h1 := statusOf_pollStep_terminal rs e id st hterm h
    simpa [applyPolls] using ih (pollStep rs e) h1

/-- Helper: the injection loop never changes an entry whose status is
`failed` (the loop skips failed entries). -/
theorem statusOf_injectLoop_failed (inj : Str → Bool) (rs : List CouncilEntry)
    (id : Str) (h : statusOf rs id = some AgentStatus.failed) :
    statusOf (injectLoop inj rs) id = some AgentStatus.failed := by
  unfold statusOf at h
  obtain ⟨r, hfind, hst⟩ := Option.map_eq_some'.mp h
  have hupd : injectStep inj r = r := by
    unfold injectStep
    rw [if_pos (Or.inl hst)]
  rw [injectLoop, statusOf_map (injectStep inj) (injectStep_modelId inj), hfind]
  simp [hupd, hst]

/-- C9. Terminal-status invariant of the per-agent state machine:
within one run (tab opening leaves every entry `pending` or `failed`, the
injection loop then runs once, then polling actions), once an agent
status is `complete`, `failed` or `timeout` at some step, no later step of
the orchestrator (injection loop or polling loop) ever changes that
agent's status again. -/
theorem c9_terminal_status_stable (init : List CouncilEntry) (inj : Str → Bool)
    (events : List PollEvent) (id : Str) (st : AgentStatus) (i j : Nat)
    (hinit : ∀ r ∈ init, r.status = AgentStatus.pending ∨
      r.status = AgentStatus.failed)
    (hij : i ≤ j) (hterm : isTerminal st = true)
    (hst : statusOf (stateAt init inj events i) id = some st) :
    statusOf (stateAt init inj events j) id = some st := by
  cases i with
  | zero =>
    have hfail : st = AgentStatus.failed := by
      simp only [stateAt, statusOf] at hst
      obtain ⟨r, hfind, hmap⟩ := Option.map_eq_some'.mp hst
      have hmem := List.mem_of_find?_eq_some hfind
      rcases hinit r hmem with hp | hf
      · rw [← hmap, hp] at hterm
        simp [isTerminal] at hterm
      · rw [← hmap, hf]
    subst hfail
    cases j with
    | zero => exact hst
    | succ k =>
      simp only [stateAt] at hst ⊢
      exact statusOf_applyPolls_terminal _ _ _ _ hterm
        (statusOf_injectLoop_failed inj init id hst)
  | succ i1 =>
    cases j with
    | zero => omega
    | succ j1 =>
      have hij1 : i1 ≤ j1 := by omega
      simp only [stateAt] at hst ⊢
      have hsplit : events.take j1 =
          events.take i1 ++ (events.take j1).drop i1 := by
        conv_lhs => rw [← List.take_append_drop i1 (events.take j1)]
        rw [List.take_take, Nat.min_eq_left hij1]
      rw [hsplit]
      unfold applyPolls
      rw [List.foldl_append]
      exact statusOf_applyPolls_terminal _ _ _ _ hterm hst

theorem c9_terminal_status_stable_witness :
    statusOf (stateAt c9WitnessInit (fun _ => true) c9WitnessEvents 3)
      ("chatgpt").data = some AgentStatus.failed :=
  c9_terminal_status_stable c9WitnessInit (fun _ => true) c9WitnessEvents
    ("chatgpt").data AgentStatus.failed 0 3 (by decide) (by decide) (by decide)
    (by decide)

/-! ## Claim theorems: prompt builder containment -/

/-- Helper: a replacement string without `$` is substituted literally. -/
theorem gsub_noDollar (matched before after repl : Str) (h : '$' ∉ repl) :
    gsub matched before after repl = repl := by
  induction repl with
  | nil => rfl
  | cons c t ih =>
    have hc : ¬ (c = '$') := by
      intro hc
      subst hc
      exact h (List.mem_cons_self _ _)
    have ht : '$' ∉ t := fun hm => h (List.mem_cons_of_mem c hm)
    rw [gsub.eq_def]
    simp [hc, ih ht]

theorem ciStartsWith_self_append (t y : Str) : ciStartsWith t (t ++ y) = true := by
  induction t with
  | nil => rfl
  | cons c cs ih => simp [ciStartsWith, ciEq, ih]

theorem hasMatchCI_of_ciStartsWith (t s : Str) (h : ciStartsWith t s = true) :
    hasMatchCI t s = true := by
  cases s with
  | nil => exact h
  | cons c rest => simp [hasMatchCI, h]

theorem hasMatchCI_of_occurs (t s : Str) (h : Occurs t s) :
    hasMatchCI t s = true := by
  obtain ⟨x, y, rfl⟩ := h
  induction x with
  | nil =>
    have := hasMatchCI_of_ciStartsWith t (t ++ y) (ciStartsWith_self_append t y)
    simpa using this
  | cons a as ih =>
    simp only [List.append_assoc] at ih
    simp [hasMatchCI, ih, List.append_assoc]

/-- Helper: whenever the pattern matches somewhere in the subject and the
replacement contains no `$`, the replacement occurs literally in the
output of the global replace. -/
theorem occurs_repl_replaceGo (pat repl : Str) (hpat : pat ≠ [])
    (hnd : '$' ∉ repl) :
    ∀ fuel s before, s.length ≤ fuel → hasMatchCI pat s = true →
      Occurs repl (replaceGo pat repl fuel s before) := by
  intro fuel
  induction fuel with
  | zero =>
    intro s before hlen hm
    have hs : s = [] := List.length_eq_zero.mp (Nat.le_zero.mp hlen)
    subst hs
    cases pat with
    | nil => exact absurd rfl hpat
    | cons p ps => simp [hasMatchCI, ciStartsWith] at hm
  | succ fuel ih =>
    intro s before hlen hm
    cases s with
    | nil =>
      cases pat with
      | nil => exact absurd rfl hpat
      | cons p ps => simp [hasMatchCI, ciStartsWith] at hm
    | cons c rest =>
      have hpe : pat.isEmpty = false := by
        cases pat with
        | nil => exact absurd rfl hpat
        | cons _ _ => rfl
      by_cases hciS : ciStartsWith pat (c :: rest) = true
      · have hcond : (!pat.isEmpty && ciStartsWith pat (c :: rest)) = true := by
          simp [hpe, hciS]
        simp only [replaceGo, hcond, if_true]
        rw [gsub_noDollar _ _ _ _ hnd]
        exact occurs_append_right _ (occurs_refl repl)
      · have hcond : ¬ ((!pat.isEmpty && ciStartsWith pat (c :: rest)) = true) := by
          simp [hciS]
        have hm1 : hasMatchCI pat rest = true := by
          have := hm
          simp only [hasMatchCI, Bool.or_eq_true] at this
          rcases this with h1 | h2
          · exact absurd h1 hciS
          · exact h2
        have hlen1 : rest.length ≤ fuel := by
          simpa using Nat.le_of_succ_le_succ hlen
        simp only [replaceGo, if_neg hcond]
        exact occurs_cons c (ih rest (before ++ [c]) hlen1 hm1)

/-- Helper: the replace scan copies verbatim a prefix in which no match
begins. -/
theorem replaceGo_skip (pat repl : Str) :
    ∀ (X Y before : Str) (fuel : Nat), (X ++ Y).length ≤ fuel →
      noMatchPfx pat X Y = true →
      replaceGo pat repl fuel (X ++ Y) before =
        X ++ replaceGo pat repl (fuel - X.length) Y (before ++ X) := by
  intro X
  induction X with
  | nil => intro Y before fuel hlen h; simp
  | cons c X1 ih =>
    intro Y before fuel hlen h
    cases fuel with
    | zero => simp at hlen
    | succ f =>
      simp only [noMatchPfx, Bool.and_eq_true, Bool.not_eq_true'] at h
      have hcond : ¬ ((!pat.isEmpty && ciStartsWith pat (c :: (X1 ++ Y))) = true) := by
        simp [h.1]
      have hlen1 : (X1 ++ Y).length ≤ f := by
        simp only [List.cons_append, List.length_cons] at hlen
        omega
      simp only [List.cons_append, replaceGo, List.append_eq]
      rw [if_neg hcond]
      rw [ih Y (before ++ [c]) f hlen1 h.2]
      simp [List.append_assoc, Nat.succ_sub_succ]

/-- Helper: one match step of the replace scan. -/
theorem replaceGo_match_head (pat repl : Str) (hpe : pat.isEmpty = false) :
    ∀ (fuel : Nat) (s before : Str), 1 ≤ fuel → ciStartsWith pat s = true →
      s ≠ [] →
      replaceGo pat repl fuel s before =
        gsub (s.take pat.length) before (s.drop pat.length) repl ++
          replaceGo pat repl (fuel - 1) (s.drop pat.length)
            (before ++ s.take pat.length) := by
  intro fuel s before hfuel hci hne
  cases fuel with
  | zero => omega
  | succ f =>
    cases s with
    | nil => exact absurd rfl hne
    | cons c rest =>
      have hcond : (!pat.isEmpty && ciStartsWith pat (c :: rest)) = true := by
        simp [hpe, hci]
      simp only [replaceGo, if_pos hcond, Nat.succ_sub_one]

/-- Helper: the replace scan leaves a match-free subject unchanged. -/
theorem replaceGo_no_match (pat repl : Str) :
    ∀ (fuel : Nat) (s before : Str), s.length ≤ fuel →
      hasMatchCI pat s = false → replaceGo pat repl fuel s before = s := by
  intro fuel
  induction fuel with
  | zero =>
    intro s before hlen hm
    have hs : s = [] := List.length_eq_zero.mp (Nat.le_zero.mp hlen)
    subst hs
    rfl
  | succ f ih =>
    intro s before hlen hm
    cases s with
    | nil => rfl
    | cons c rest =>
      simp only [hasMatchCI, Bool.or_eq_false_iff] at hm
      have hcond : ¬ ((!pat.isEmpty && ciStartsWith pat (c :: rest)) = true) := by
        simp [hm.1]
      have hlen1 : rest.length ≤ f := by
        simp only [List.length_cons] at hlen
        omega
      simp only [replaceGo, if_neg hcond]
      rw [ih rest (before ++ [c]) hlen1 hm.2]

set_option maxRecDepth 400000 in
/-- Helper: the question replacement on the default template rewrites
exactly the placeholder: the output is the constant prefix, the
substituted prompt, and the constant tail. -/
theorem replace_question_default (p : Str) :
    replaceCI DEFAULT_JUDGE_PROMPT (("{question}").data) p =
      defaultPromptPart1 ++
        (gsub (("{question}").data) defaultPromptPart1 questionTail p ++
          questionTail) := by
  have hdecomp : DEFAULT_JUDGE_PROMPT =
      defaultPromptPart1 ++ ((("{question}").data) ++ questionTail) := by
    simp [DEFAULT_JUDGE_PROMPT, questionTail, List.append_assoc]
  rw [replaceCI, hdecomp]
  rw [replaceGo_skip (("{question}").data) p defaultPromptPart1
    ((("{question}").data) ++ questionTail) [] _ (le_refl _) (by decide)]
  have hfuel : (defaultPromptPart1 ++ ((("{question}").data) ++ questionTail)).length -
      defaultPromptPart1.length = ((("{question}").data) ++ questionTail).length := by
    simp [List.length_append]
  rw [hfuel]
  have h10 : ((("{question}").data).length) = 10 := rfl
  have hqne : (("{question}").data) ≠ [] := by decide
  have hne : (("{question}").data) ++ questionTail ≠ [] := by
    intro hh
    exact hqne (List.append_eq_nil.mp hh).1
  have hfuel2 : 1 ≤ ((("{question}").data) ++ questionTail).length := by
    rw [List.length_append, h10]
    omega
  rw [replaceGo_match_head (("{question}").data) p (by decide) _ _ _ hfuel2
    (ciStartsWith_self_append _ _) hne]
  rw [List.take_left, List.drop_left]
  have htail : hasMatchCI (("{question}").data) questionTail = false := by decide
  have hlen3 : questionTail.length ≤
      ((("{question}").data) ++ questionTail).length - 1 := by
    rw [List.length_append, h10]
    omega
  rw [replaceGo_no_match (("{question}").data) p _ _ _ hlen3 htail]
  simp

/-- Helper: the output of the question replacement on the default template
still contains the `{responses}` placeholder, for every prompt. -/
theorem hasMatch_responses_after_question (p : Str) :
    hasMatchCI (("{responses}").data)
      (replaceCI DEFAULT_JUDGE_PROMPT (("{question}").data) p) = true := by
  rw [replace_question_default]
  apply hasMatchCI_of_occurs
  apply occurs_append_left
  apply occurs_append_left
  exact ⟨defaultPromptPart2, defaultPromptPart3, rfl⟩

/-- Helper: the trimmed responses block occurs literally in the built
prompt whenever it contains no `$`. -/
theorem occurs_trimBlock_in_build (originalPrompt : Str)
    (responses : List ResponseRecord)
    (hnd : '$' ∉ trimJS (responsesBlockOf responses)) :
    Occurs (trimJS (responsesBlockOf responses))
      (buildEvaluationPrompt originalPrompt responses none) := by
  simp only [buildEvaluationPrompt]
  rw [replaceCI]
  exact occurs_repl_replaceGo (("{responses}").data)
    (trimJS (responsesBlockOf responses)) (by decide) hnd _ _ []
    (le_refl _) (hasMatch_responses_after_question originalPrompt)

/-- Helper: dropping a leading segment whose continuation starts with a
character violating `p` reaches exactly that continuation. -/
theorem dropWhile_append_of_head_false (p : Char → Bool) (A B : Str)
    (hB : ∃ b B2, B = b :: B2 ∧ p b = false) :
    ∃ A2, (A ++ B).dropWhile p = A2 ++ B := by
  induction A with
  | nil =>
    obtain ⟨b, B2, rfl, hb⟩ := hB
    exact ⟨[], by simp [List.dropWhile_cons, hb]⟩
  | cons a A1 ih =>
    by_cases ha : p a = true
    · obtain ⟨A2, hA2⟩ := ih
      exact ⟨A2, by simp [List.dropWhile_cons, ha, hA2]⟩
    · exact ⟨a :: A1, by simp [List.dropWhile_cons, ha]⟩

/-- Helper: an occurrence whose last character is not whitespace, inside a
string whose first character is not whitespace, survives `trim`. -/
theorem occurs_trimJS {u : Str} {d : Char} {s : Str} (c0 : Char) (s2 : Str)
    (hs : s = c0 :: s2) (hc0 : jsSpace c0 = false) (hd : jsSpace d = false)
    (h : Occurs (u ++ [d]) s) :
    Occurs (u ++ [d]) (trimJS s) := by
  obtain ⟨x, y, hxy⟩ := h
  unfold trimJS
  have hleft : s.dropWhile jsSpace = s := by
    rw [hs]
    simp [List.dropWhile_cons, hc0]
  rw [hleft, hxy]
  have hrev : (x ++ (u ++ [d]) ++ y).reverse =
      y.reverse ++ (d :: (u.reverse ++ x.reverse)) := by
    simp [List.reverse_append]
  rw [hrev]
  obtain ⟨A2, hA2⟩ := dropWhile_append_of_head_false jsSpace y.reverse
    (d :: (u.reverse ++ x.reverse)) ⟨d, u.reverse ++ x.reverse, rfl, hd⟩
  rw [hA2]
  refine ⟨x, A2.reverse, ?_⟩
  simp [List.reverse_append, List.append_assoc]

/-- Helper: an anonymization label is never the substitution escape
character. -/
theorem labelCh_ne_dollar (i : Nat) : ¬ (labelCh i = '$') := by
  intro h
  have h36 := congrArg Char.toNat h
  rw [labelCh, Char.ofNat] at h36
  by_cases hv : (65 + i).isValidChar
  · rw [dif_pos hv] at h36
    have hval : (Char.ofNatAux (65 + i) hv).toNat = 65 + i := rfl
    rw [hval] at h36
    have : ('$').toNat = 36 := rfl
    omega
  · rw [dif_neg hv] at h36
    exact absurd h36 (by decide)

/-- Helper: a character of `joinComma fs` is a comma-separator character
or belongs to one of the joined strings. -/
theorem mem_joinComma {c : Char} :
    ∀ {fs : List Str}, c ∈ joinComma fs → c ∈ ((", ").data) ∨ ∃ f ∈ fs, c ∈ f := by
  intro fs
  induction fs with
  | nil => intro h; simp [joinComma] at h
  | cons a rest ih =>
    intro h
    cases rest with
    | nil => exact Or.inr ⟨a, by simp, h⟩
    | cons b bs =>
      rcases List.mem_append.mp h with h1 | h2
      · rcases List.mem_append.mp h1 with h3 | h4
        · exact Or.inr ⟨a, by simp, h3⟩
        · exact Or.inl h4
      · rcases ih h2 with h5 | ⟨f, hf, hcf⟩
        · exact Or.inl h5
        · exact Or.inr ⟨f, List.mem_cons_of_mem _ hf, hcf⟩

/-- Helper: a character of a response section belongs to a responded name
or response, is a label character, or is section punctuation. -/
theorem mem_responseSections {c : Char} :
    ∀ (l : List (Str × Str)) (j : Nat), c ∈ responseSections l j →
      (∃ q ∈ l, c ∈ q.1 ∨ c ∈ q.2) ∨ (∃ i, c = labelCh i) ∨
        c ∈ ((" (Response "):String).data ∨ c ∈ (("):\n"):String).data ∨
        c ∈ (("\n\n"):String).data := by
  intro l
  induction l with
  | nil => intro j h; simp [responseSections] at h
  | cons q rest ih =>
    intro j h
    simp only [responseSections, List.append_assoc] at h
    rcases List.mem_append.mp h with h1 | h2
    · exact Or.inl ⟨q, by simp, Or.inl h1⟩
    rcases List.mem_append.mp h2 with h3 | h4
    · exact Or.inr (Or.inr (Or.inl h3))
    rcases List.mem_append.mp h4 with h5 | h6
    · exact Or.inr (Or.inl ⟨j, List.mem_singleton.mp h5⟩)
    rcases List.mem_append.mp h6 with h7 | h8
    · exact Or.inr (Or.inr (Or.inr (Or.inl h7)))
    rcases List.mem_append.mp h8 with h9 | h10
    · exact Or.inl ⟨q, by simp, Or.inr h9⟩
    rcases List.mem_append.mp h10 with h11 | h12
    · exact Or.inr (Or.inr (Or.inr (Or.inr h11)))
    · rcases ih (j + 1) h12 with ha | hb
      · obtain ⟨q2, hq2, hc2⟩ := ha
        exact Or.inl ⟨q2, List.mem_cons_of_mem _ hq2, hc2⟩
      · exact Or.inr hb

/-- Helper: a responded pair comes from a responded record. -/
theorem mem_respondedModels {q : Str × Str} {responses : List ResponseRecord}
    (h : q ∈ respondedModels responses) :
    ∃ r ∈ responses, q.1 = r.modelName ∧ q.2 = r.response.getD [] := by
  unfold respondedModels at h
  obtain ⟨r, hr, hq⟩ := List.mem_map.mp h
  exact ⟨r, (List.mem_filter.mp hr).1, by rw [← hq], by rw [← hq]⟩

/-- Helper: a failed name comes from a record of the input list. -/
theorem mem_failedModels {n : Str} {responses : List ResponseRecord}
    (h : n ∈ failedModels responses) :
    ∃ r ∈ responses, n = r.modelName := by
  unfold failedModels at h
  obtain ⟨r, hr, hq⟩ := List.mem_map.mp h
  exact ⟨r, (List.mem_filter.mp hr).1, by rw [← hq]⟩

/-- Helper: with dollar-free names and responses, the responses block
contains no substitution escape character. -/
theorem noDollar_block (responses : List ResponseRecord)
    (hnd : ∀ r ∈ responses, dollarFree r) :
    '$' ∉ responsesBlockOf responses := by
  intro hm
  unfold responsesBlockOf at hm
  rcases List.mem_append.mp hm with h1 | h2
  · rcases List.mem_append.mp h1 with h3 | h4
    · by_cases hf : (failedModels responses).isEmpty = true
      · rw [if_pos hf] at h3
        simp at h3
      · rw [if_neg hf] at h3
        rcases List.mem_append.mp h3 with h5 | h6
        · rcases List.mem_append.mp h5 with h7 | h8
          · exact absurd h7 (by decide)
          · rcases mem_joinComma h8 with h9 | ⟨f, hf2, hcf⟩
            · exact absurd h9 (by decide)
            · obtain ⟨r, hr, rfl⟩ := mem_failedModels hf2
              exact (hnd r hr).1 hcf
        · exact absurd h6 (by decide)
    · exact absurd h4 (by decide)
  · rcases mem_responseSections (respondedModels responses) 0 h2 with
      ⟨q, hq, hc⟩ | ⟨i, hi⟩ | h5 | h6 | h7
    · obtain ⟨r, hr, hq1, hq2⟩ := mem_respondedModels hq
      rcases hc with hcn | hcr
      · exact (hnd r hr).1 (hq1 ▸ hcn)
      · rw [hq2] at hcr
        cases hresp : r.response with
        | none => rw [hresp] at hcr; simp at hcr
        | some resp =>
          rw [hresp] at hcr
          exact (hnd r hr).2 resp hresp (by simpa using hcr)
    · exact labelCh_ne_dollar i hi.symm
    · exact absurd h5 (by decide)
    · exact absurd h6 (by decide)
    · exact absurd h7 (by decide)

/-- Helper: trimming preserves dollar-freeness. -/
theorem noDollar_trimJS {s : Str} (h : '$' ∉ s) : '$' ∉ trimJS s := by
  intro hm
  unfold trimJS at hm
  have h1 := List.mem_reverse.mp hm
  have h2 := (List.dropWhile_sublist (l := (s.dropWhile jsSpace).reverse)
    (p := jsSpace)).subset h1
  have h3 := List.mem_reverse.mp h2
  exact h ((List.dropWhile_sublist (l := s) (p := jsSpace)).subset h3)

/-- Helper: the responses block starts with a non-whitespace character
(`N` of the disclaimer or `H` of the header). -/
theorem responsesBlock_head (responses : List ResponseRecord) :
    ∃ c s2, responsesBlockOf responses = c :: s2 ∧ jsSpace c = false := by
  unfold responsesBlockOf
  by_cases hf : (failedModels responses).isEmpty = true
  · rw [if_pos hf]
    exact ⟨'H', _, rfl, by decide⟩
  · rw [if_neg hf]
    exact ⟨'N', _, rfl, by decide⟩

/-- Helper: any occurrence in the responses block that ends in a
non-whitespace character survives into the built prompt (default
template, dollar-free inputs). -/
theorem occurs_block_target_in_build (originalPrompt : Str)
    (responses : List ResponseRecord) (u : Str) (d : Char)
    (hnd : ∀ r ∈ responses, dollarFree r) (hd : jsSpace d = false)
    (hocc : Occurs (u ++ [d]) (responsesBlockOf responses)) :
    Occurs (u ++ [d]) (buildEvaluationPrompt originalPrompt responses none) := by
  obtain ⟨c, s2, hs, hc⟩ := responsesBlock_head responses
  exact occurs_trans (occurs_trimJS c s2 hs hc hd hocc)
    (occurs_trimBlock_in_build originalPrompt responses
      (noDollar_trimJS (noDollar_block responses hnd)))

/-- Helper: a member occurs in the comma join. -/
theorem occurs_joinComma {n : Str} :
    ∀ {fs : List Str}, n ∈ fs → Occurs n (joinComma fs) := by
  intro fs
  induction fs with
  | nil => intro h; simp at h
  | cons a rest ih =>
    intro h
    cases rest with
    | nil =>
      have : n = a := by simpa using h
      subst this
      exact occurs_refl n
    | cons b bs =>
      rcases List.mem_cons.mp h with rfl | hm
      · exact ⟨[], (", ").data ++ joinComma (b :: bs), by simp [joinComma, List.append_assoc]⟩
      · exact occurs_append_left _ (ih hm)

/-- Helper: the disclaimer occurs at the head of the responses block when
some agent failed. -/
theorem occurs_disclaimer_block (responses : List ResponseRecord)
    (hf : (failedModels responses).isEmpty = false) :
    Occurs (disclaimerFor (failedModels responses)) (responsesBlockOf responses) := by
  unfold responsesBlockOf
  rw [if_neg (by simp [hf])]
  refine ⟨[], ("\n\n").data ++
    ("Here are the responses from different council models:\n\n").data ++
    responseSections (respondedModels responses) 0, ?_⟩
  rw [show ((". Exclude them from evaluation.\n\n"):String).data =
    ((". Exclude them from evaluation."):String).data ++ (("\n\n"):String).data from rfl]
  simp [disclaimerFor, List.append_assoc]

/-- Helper: the labeled name header of every responded model occurs in the
response sections, with consecutive labels. -/
theorem occurs_section_target :
    ∀ (l : List (Str × Str)) (j i : Nat) (hi : i < l.length),
      Occurs ((l.get ⟨i, hi⟩).1 ++ (" (Response ").data ++ [labelCh (j + i)] ++
          ("):").data)
        (responseSections l j) := by
  intro l
  induction l with
  | nil => intro j i hi; simp at hi
  | cons q rest ih =>
    intro j i hi
    cases i with
    | zero =>
      refine ⟨[], ("\n").data ++ q.2 ++ ("\n\n").data ++
        responseSections rest (j + 1), ?_⟩
      simp [responseSections, List.append_assoc]
    | succ i1 =>
      have hi1 : i1 < rest.length := by simpa using hi
      have harr : j + (i1 + 1) = (j + 1) + i1 := by omega
      have hget : ((q :: rest).get ⟨i1 + 1, hi⟩) = rest.get ⟨i1, hi1⟩ := rfl
      rw [hget, harr]
      show Occurs _ (responseSections (q :: rest) j)
      simp only [responseSections]
      exact occurs_append_left _ (ih (j + 1) i1 hi1)

/-- Helper: an occurrence of a longer string gives an occurrence of its
right part. -/
theorem occurs_right_of_append {a b s : Str} (h : Occurs (a ++ b) s) :
    Occurs b s := by
  obtain ⟨x, y, hxy⟩ := h
  exact ⟨x ++ a, y, by simpa [List.append_assoc] using hxy⟩

/-- Helper: the responded sections sit at the tail of the responses
block. -/
theorem occurs_sections_in_block (responses : List ResponseRecord) {t : Str}
    (h : Occurs t (responseSections (respondedModels responses) 0)) :
    Occurs t (responsesBlockOf responses) := by
  unfold responsesBlockOf
  exact occurs_append_left _ h

/-- Counterexample to C7 as stated: a record with a non-null but empty
response and status `complete` is NOT placed in the completed partition —
JS truthiness (`r.response && ...`) treats the empty string as failed, so
the disclaimer names it. -/
theorem c7_counterexample_empty_response :
    (let r : ResponseRecord :=
      { modelId := ("gemini").data, modelName := ("Gemini").data,
        response := some [], status := ("complete").data }
     isResponded r = false ∧ ¬ (r.response = none) ∧
       r.status = ("complete").data ∧ failedModels [r] = [("Gemini").data]) := by
  decide

/-- C7 (amended). `buildEvaluationPrompt` partitions its results into
completed (response non-null AND non-empty, status `complete`) and failed;
and — for the default template with `$`-free names and responses —
whenever the failed partition is non-empty the built prompt contains the
disclaimer sentence naming every failed agent, and the completed
responses are labeled `Response A, B, C, …` consecutively in
completed-list order. -/
theorem c7_partition_disclaimer_labels (originalPrompt : Str)
    (responses : List ResponseRecord)
    (hnd : ∀ r ∈ responses, dollarFree r) :
    (∀ r ∈ responses, (isResponded r = true ↔
      ∃ resp, r.response = some resp ∧ resp ≠ [] ∧
        r.status = ("complete").data)) ∧
    (failedModels responses ≠ [] →
      Occurs (disclaimerFor (failedModels responses))
        (buildEvaluationPrompt originalPrompt responses none) ∧
      ∀ n ∈ failedModels responses,
        Occurs n (buildEvaluationPrompt originalPrompt responses none)) ∧
    (∀ i, (hi : i < (respondedModels responses).length) →
      Occurs ((" (Response ").data ++ [labelCh i] ++ ("):").data)
        (buildEvaluationPrompt originalPrompt responses none)) := by
  refine ⟨?_, ?_, ?_⟩
  · intro r hr
    cases hresp : r.response with
    | none => simp [isResponded, hresp]
    | some resp => simp [isResponded, hresp, List.isEmpty_iff]
  · intro hfne
    have hf : (failedModels responses).isEmpty = false := by
      cases hfm : failedModels responses with
      | nil => exact absurd hfm hfne
      | cons a l => rfl
    have hdisc := occurs_disclaimer_block responses hf
    have htarget : disclaimerFor (failedModels responses) =
        (("Note: The following models did not provide a response: ").data ++
          joinComma (failedModels responses) ++
          ((". Exclude them from evaluation"):String).data) ++ ['.'] := by
      unfold disclaimerFor
      rw [show ((". Exclude them from evaluation."):String).data =
        ((". Exclude them from evaluation"):String).data ++ ['.'] from rfl]
      simp [List.append_assoc]
    have hout : Occurs (disclaimerFor (failedModels responses))
        (buildEvaluationPrompt originalPrompt responses none) := by
      rw [htarget] at hdisc ⊢
      exact occurs_block_target_in_build originalPrompt responses _ '.' hnd
        (by decide) hdisc
    refine ⟨hout, ?_⟩
    intro n hn
    have hjoin : Occurs n (disclaimerFor (failedModels responses)) := by
      unfold disclaimerFor
      exact occurs_append_right _ (occurs_append_left _ (occurs_joinComma hn))
    exact occurs_trans hjoin hout
  · intro i hi
    have hsec := occurs_section_target (respondedModels responses) 0 i hi
    rw [Nat.zero_add] at hsec
    have hblock := occurs_sections_in_block responses hsec
    have hweak : Occurs ((" (Response ").data ++ [labelCh i] ++ ("):").data)
        (responsesBlockOf responses) := by
      have h2 : Occurs (((respondedModels responses).get ⟨i, hi⟩).1 ++
          ((" (Response ").data ++ [labelCh i] ++ ("):").data))
          (responsesBlockOf responses) := by
        simpa [List.append_assoc] using hblock
      exact occurs_right_of_append h2
    have htarget : (" (Response ").data ++ [labelCh i] ++ ("):").data =
        ((" (Response ").data ++ [labelCh i] ++ [')']) ++ [':'] := by
      rw [show (("):"):String).data = [')'] ++ [':'] from rfl]
      simp [List.append_assoc]
    rw [htarget] at hweak ⊢
    exact occurs_block_target_in_build originalPrompt responses _ ':' hnd
      (by decide) hweak

theorem c7_partition_disclaimer_labels_witness :
    Occurs (disclaimerFor (failedModels c7WitnessResults))
      (buildEvaluationPrompt ("What is the capital of France?").data
        c7WitnessResults none) ∧
    Occurs ((" (Response ").data ++ [labelCh 0] ++ ("):").data)
      (buildEvaluationPrompt ("What is the capital of France?").data
        c7WitnessResults none) := by
  have hnd : ∀ r ∈ c7WitnessResults, dollarFree r := by
    intro r hr
    simp only [c7WitnessResults, List.mem_cons, List.not_mem_nil, or_false] at hr
    rcases hr with rfl | rfl
    · refine ⟨by decide, ?_⟩
      intro resp hresp
      have he : ("Paris.").data = resp := Option.some.inj hresp
      rw [← he]
      decide
    · refine ⟨by decide, ?_⟩
      intro resp hresp
      exact Option.noConfusion hresp
  have h := c7_partition_disclaimer_labels
    ("What is the capital of France?").data c7WitnessResults hnd
  exact ⟨(h.2.1 (by decide)).1, h.2.2 0 (by decide)⟩

/-- Counterexample to C10 as stated: with a custom prompt that lacks
the `{responses}` placeholder, the built prompt does not print the
completed agent name before any label at all. -/
theorem c10_counterexample_custom_prompt :
    ¬ Occurs ((("ChatGPT"):String).data ++ (" (Response ").data ++ [labelCh 0] ++
        ("):").data)
      (buildEvaluationPrompt ("q").data c10CounterResults
        (some ("Just answer the question.").data)) := by
  rw [occurs_iff_occursB]
  decide

/-- C10 (amended). For the default template (no custom prompt) with
`$`-free names and responses, the built prompt prints each completed
agent real display name immediately before its anonymization label, in
the form `<display name> (Response <label>):` — so the judge sees the
real identity of every response and the labels do not anonymize.  (With a
custom template lacking the `{responses}` placeholder this fails — see
the counterexample.) -/
theorem c10_names_adjacent_to_labels (originalPrompt : Str)
    (responses : List ResponseRecord)
    (hnd : ∀ r ∈ responses, dollarFree r) :
    ∀ i, (hi : i < (respondedModels responses).length) →
      Occurs (((respondedModels responses).get ⟨i, hi⟩).1 ++
          (" (Response ").data ++ [labelCh i] ++ ("):").data)
        (buildEvaluationPrompt originalPrompt responses none) := by
  intro i hi
  have hsec := occurs_section_target (respondedModels responses) 0 i hi
  rw [Nat.zero_add] at hsec
  have hblock := occurs_sections_in_block responses hsec
  have htarget : ((respondedModels responses).get ⟨i, hi⟩).1 ++
      (" (Response ").data ++ [labelCh i] ++ ("):").data =
      (((respondedModels responses).get ⟨i, hi⟩).1 ++ (" (Response ").data ++
        [labelCh i] ++ [')']) ++ [':'] := by
    rw [show (("):"):String).data = [')'] ++ [':'] from rfl]
    simp [List.append_assoc]
  rw [htarget] at hblock ⊢
  exact occurs_block_target_in_build originalPrompt responses _ ':' hnd
    (by decide) hblock

theorem c10_names_adjacent_to_labels_witness :
    Occurs ((("Gemini"):String).data ++ (" (Response ").data ++ [labelCh 0] ++
        ("):").data)
      (buildEvaluationPrompt ("q").data c10WitnessResults none) := by
  have hnd : ∀ r ∈ c10WitnessResults, dollarFree r := by
    intro r hr
    simp only [c10WitnessResults, List.mem_cons, List.not_mem_nil, or_false] at hr
    rcases hr with rfl
    refine ⟨by decide, ?_⟩
    intro resp hresp
    have he : ("It is Paris.").data = resp := Option.some.inj hresp
    rw [← he]
    decide
  exact c10_names_adjacent_to_labels ("q").data c10WitnessResults hnd 0 (by decide)

set_option maxRecDepth 4000000 in
set_option maxHeartbeats 2000000 in
theorem c1case01 : c1Check [("ChatGPT").data] = true := by decide

set_option maxRecDepth 4000000 in
set_option maxHeartbeats 2000000 in
theorem c1case02 : c1Check [("Gemini").data] = true := by decide

set_option maxRecDepth 4000000 in
set_option maxHeartbeats 2000000 in
theorem c1case03 : c1Check [("Perplexity").data] = true := by decide

set_option maxRecDepth 4000000 in
set_option maxHeartbeats 2000000 in
theorem c1case04 : c1Check [("Grok").data] = true := by decide

set_option maxRecDepth 4000000 in
set_option maxHeartbeats 2000000 in
theorem c1case05 : c1Check [("ChatGPT").data, ("Gemini").data] = true := by decide

set_option maxRecDepth 4000000 in
set_option maxHeartbeats 2000000 in
theorem c1case06 : c1Check [("ChatGPT").data, ("Perplexity").data] = true := by decide

set_option maxRecDepth 4000000 in
set_option maxHeartbeats 2000000 in
theorem c1case07 : c1Check [("ChatGPT").data, ("Grok").data] = true := by decide

set_option maxRecDepth 4000000 in
set_option maxHeartbeats 2000000 in
theorem c1case08 : c1Check [("Gemini").data, ("ChatGPT").data] = true := by decide

set_option maxRecDepth 4000000 in
set_option maxHeartbeats 2000000 in
theorem c1case09 : c1Check [("Gemini").data, ("Perplexity").data] = true := by decide

set_option maxRecDepth 4000000 in
set_option maxHeartbeats 2000000 in
theorem c1case10 : c1Check [("Gemini").data, ("Grok").data] = true := by decide

set_option maxRecDepth 4000000 in
set_option maxHeartbeats 2000000 in
theorem c1case11 : c1Check [("Perplexity").data, ("ChatGPT").data] = true := by decide

set_option maxRecDepth 4000000 in
set_option maxHeartbeats 2000000 in
theorem c1case12 : c1Check [("Perplexity").data, ("Gemini").data] = true := by decide

set_option maxRecDepth 4000000 in
set_option maxHeartbeats 2000000 in
theorem c1case13 : c1Check [("Perplexity").data, ("Grok").data] = true := by decide

set_option maxRecDepth 4000000 in
set_option maxHeartbeats 2000000 in
theorem c1case14 : c1Check [("Grok").data, ("ChatGPT").data] = true := by decide

set_option maxRecDepth 4000000 in
set_option maxHeartbeats 2000000 in
theorem c1case15 : c1Check [("Grok").data, ("Gemini").data] = true := by decide

set_option maxRecDepth 4000000 in
set_option maxHeartbeats 2000000 in
theorem c1case16 : c1Check [("Grok").data, ("Perplexity").data] = true := by decide

set_option maxRecDepth 4000000 in
set_option maxHeartbeats 2000000 in
theorem c1case17 : c1Check [("ChatGPT").data, ("Gemini").data, ("Perplexity").data] = true := by decide

set_option maxRecDepth 4000000 in
set_option maxHeartbeats 2000000 in
theorem c1case18 : c1Check [("ChatGPT").data, ("Gemini").data, ("Grok").data] = true := by decide

set_option maxRecDepth 4000000 in
set_option maxHeartbeats 2000000 in
theorem c1case19 : c1Check [("ChatGPT").data, ("Perplexity").data, ("Gemini").data] = true := by decide

set_option maxRecDepth 4000000 in
set_option maxHeartbeats 2000000 in
theorem c1case20 : c1Check [("ChatGPT").data, ("Perplexity").data, ("Grok").data] = true := by decide

set_option maxRecDepth 4000000 in
set_option maxHeartbeats 2000000 in
theorem c1case21 : c1Check [("ChatGPT").data, ("Grok").data, ("Gemini").data] = true := by decide

set_option maxRecDepth 4000000 in
set_option maxHeartbeats 2000000 in
theorem c1case22 : c1Check [("ChatGPT").data, ("Grok").data, ("Perplexity").data] = true := by decide

set_option maxRecDepth 4000000 in
set_option maxHeartbeats 2000000 in
theorem c1case23 : c1Check [("Gemini").data, ("ChatGPT").data, ("Perplexity").data] = true := by decide

set_option maxRecDepth 4000000 in
set_option maxHeartbeats 2000000 in
theorem c1case24 : c1Check [("Gemini").data, ("ChatGPT").data, ("Grok").data] = true := by decide

set_option maxRecDepth 4000000 in
set_option maxHeartbeats 2000000 in
theorem c1case25 : c1Check [("Gemini").data, ("Perplexity").data, ("ChatGPT").data] = true := by decide

set_option maxRecDepth 4000000 in
set_option maxHeartbeats 2000000 in
theorem c1case26 : c1Check [("Gemini").data, ("Perplexity").data, ("Grok").data] = true := by decide

set_option maxRecDepth 4000000 in
set_option maxHeartbeats 2000000 in
theorem c1case27 : c1Check [("Gemini").data, ("Grok").data, ("ChatGPT").data] = true := by decide

set_option maxRecDepth 4000000 in
set_option maxHeartbeats 2000000 in
theorem c1case28 : c1Check [("Gemini").data, ("Grok").data, ("Perplexity").data] = true := by decide

set_option maxRecDepth 4000000 in
set_option maxHeartbeats 2000000 in
theorem c1case29 : c1Check [("Perplexity").data, ("ChatGPT").data, ("Gemini").data] = true := by decide

set_option maxRecDepth 4000000 in
set_option maxHeartbeats 2000000 in
theorem c1case30 : c1Check [("Perplexity").data, ("ChatGPT").data, ("Grok").data] = true := by decide

set_option maxRecDepth 4000000 in
set_option maxHeartbeats 2000000 in
theorem c1case31 : c1Check [("Perplexity").data, ("Gemini").data, ("ChatGPT").data] = true := by decide

set_option maxRecDepth 4000000 in
set_option maxHeartbeats 2000000 in
theorem c1case32 : c1Check [("Perplexity").data, ("Gemini").data, ("Grok").data] = true := by decide

set_option maxRecDepth 4000000 in
set_option maxHeartbeats 2000000 in
theorem c1case33 : c1Check [("Perplexity").data, ("Grok").data, ("ChatGPT").data] = true := by decide

set_option maxRecDepth 4000000 in
set_option maxHeartbeats 2000000 in
theorem c1case34 : c1Check [("Perplexity").data, ("Grok").data, ("Gemini").data] = true := by decide

set_option maxRecDepth 4000000 in
set_option maxHeartbeats 2000000 in
theorem c1case35 : c1Check [("Grok").data, ("ChatGPT").data, ("Gemini").data] = true := by decide

set_option maxRecDepth 4000000 in
set_option maxHeartbeats 2000000 in
theorem c1case36 : c1Check [("Grok").data, ("ChatGPT").data, ("Perplexity").data] = true := by decide

set_option maxRecDepth 4000000 in
set_option maxHeartbeats 2000000 in
theorem c1case37 : c1Check [("Grok").data, ("Gemini").data, ("ChatGPT").data] = true := by decide

set_option maxRecDepth 4000000 in
set_option maxHeartbeats 2000000 in
theorem c1case38 : c1Check [("Grok").data, ("Gemini").data, ("Perplexity").data] = true := by decide

set_option maxRecDepth 4000000 in
set_option maxHeartbeats 2000000 in
theorem c1case39 : c1Check [("Grok").data, ("Perplexity").data, ("ChatGPT").data] = true := by decide

set_option maxRecDepth 4000000 in
set_option maxHeartbeats 2000000 in
theorem c1case40 : c1Check [("Grok").data, ("Perplexity").data, ("Gemini").data] = true := by decide

set_option maxRecDepth 4000000 in
set_option maxHeartbeats 2000000 in
theorem c1case41 : c1Check [("ChatGPT").data, ("Gemini").data, ("Perplexity").data, ("Grok").data] = true := by decide

set_option maxRecDepth 4000000 in
set_option maxHeartbeats 2000000 in
theorem c1case42 : c1Check [("ChatGPT").data, ("Gemini").data, ("Grok").data, ("Perplexity").data] = true := by decide

set_option maxRecDepth 4000000 in
set_option maxHeartbeats 2000000 in
theorem c1case43 : c1Check [("ChatGPT").data, ("Perplexity").data, ("Gemini").data, ("Grok").data] = true := by decide

set_option maxRecDepth 4000000 in
set_option maxHeartbeats 2000000 in
theorem c1case44 : c1Check [("ChatGPT").data, ("Perplexity").data, ("Grok").data, ("Gemini").data] = true := by decide

set_option maxRecDepth 4000000 in
set_option maxHeartbeats 2000000 in
theorem c1case45 : c1Check [("ChatGPT").data, ("Grok").data, ("Gemini").data, ("Perplexity").data] = true := by decide

set_option maxRecDepth 4000000 in
set_option maxHeartbeats 2000000 in
theorem c1case46 : c1Check [("ChatGPT").data, ("Grok").data, ("Perplexity").data, ("Gemini").data] = true := by decide

set_option maxRecDepth 4000000 in
set_option maxHeartbeats 2000000 in
theorem c1case47 : c1Check [("Gemini").data, ("ChatGPT").data, ("Perplexity").data, ("Grok").data] = true := by decide

set_option maxRecDepth 4000000 in
set_option maxHeartbeats 2000000 in
theorem c1case48 : c1Check [("Gemini").data, ("ChatGPT").data, ("Grok").data, ("Perplexity").data] = true := by decide

set_option maxRecDepth 4000000 in
set_option maxHeartbeats 2000000 in
theorem c1case49 : c1Check [("Gemini").data, ("Perplexity").data, ("ChatGPT").data, ("Grok").data] = true := by decide

set_option maxRecDepth 4000000 in
set_option maxHeartbeats 2000000 in
theorem c1case50 : c1Check [("Gemini").data, ("Perplexity").data, ("Grok").data, ("ChatGPT").data] = true := by decide

set_option maxRecDepth 4000000 in
set_option maxHeartbeats 2000000 in
theorem c1case51 : c1Check [("Gemini").data, ("Grok").data, ("ChatGPT").data, ("Perplexity").data] = true := by decide

set_option maxRecDepth 4000000 in
set_option maxHeartbeats 2000000 in
theorem c1case52 : c1Check [("Gemini").data, ("Grok").data, ("Perplexity").data, ("ChatGPT").data] = true := by decide

set_option maxRecDepth 4000000 in
set_option maxHeartbeats 2000000 in
theorem c1case53 : c1Check [("Perplexity").data, ("ChatGPT").data, ("Gemini").data, ("Grok").data] = true := by decide

set_option maxRecDepth 4000000 in
set_option maxHeartbeats 2000000 in
theorem c1case54 : c1Check [("Perplexity").data, ("ChatGPT").data, ("Grok").data, ("Gemini").data] = true := by decide

set_option maxRecDepth 4000000 in
set_option maxHeartbeats 2000000 in
theorem c1case55 : c1Check [("Perplexity").data, ("Gemini").data, ("ChatGPT").data, ("Grok").data] = true := by decide

set_option maxRecDepth 4000000 in
set_option maxHeartbeats 2000000 in
theorem c1case56 : c1Check [("Perplexity").data, ("Gemini").data, ("Grok").data, ("ChatGPT").data] = true := by decide

set_option maxRecDepth 4000000 in
set_option maxHeartbeats 2000000 in
theorem c1case57 : c1Check [("Perplexity").data, ("Grok").data, ("ChatGPT").data, ("Gemini").data] = true := by decide

set_option maxRecDepth 4000000 in
set_option maxHeartbeats 2000000 in
theorem c1case58 : c1Check [("Perplexity").data, ("Grok").data, ("Gemini").data, ("ChatGPT").data] = true := by decide

set_option maxRecDepth 4000000 in
set_option maxHeartbeats 2000000 in
theorem c1case59 : c1Check [("Grok").data, ("ChatGPT").data, ("Gemini").data, ("Perplexity").data] = true := by decide

set_option maxRecDepth 4000000 in
set_option maxHeartbeats 2000000 in
theorem c1case60 : c1Check [("Grok").data, ("ChatGPT").data, ("Perplexity").data, ("Gemini").data] = true := by decide

set_option maxRecDepth 4000000 in
set_option maxHeartbeats 2000000 in
theorem c1case61 : c1Check [("Grok").data, ("Gemini").data, ("ChatGPT").data, ("Perplexity").data] = true := by decide

set_option maxRecDepth 4000000 in
set_option maxHeartbeats 2000000 in
theorem c1case62 : c1Check [("Grok").data, ("Gemini").data, ("Perplexity").data, ("ChatGPT").data] = true := by decide

set_option maxRecDepth 4000000 in
set_option maxHeartbeats 2000000 in
theorem c1case63 : c1Check [("Grok").data, ("Perplexity").data, ("ChatGPT").data, ("Gemini").data] = true := by decide

set_option maxRecDepth 4000000 in
set_option maxHeartbeats 2000000 in
theorem c1case64 : c1Check [("Grok").data, ("Perplexity").data, ("Gemini").data, ("ChatGPT").data] = true := by decide

theorem c1NameLists_eq :
    c1NameLists = [[("ChatGPT").data],
      [("Gemini").data],
      [("Perplexity").data],
      [("Grok").data],
      [("ChatGPT").data, ("Gemini").data],
      [("ChatGPT").data, ("Perplexity").data],
      [("ChatGPT").data, ("Grok").data],
      [("Gemini").data, ("ChatGPT").data],
      [("Gemini").data, ("Perplexity").data],
      [("Gemini").data, ("Grok").data],
      [("Perplexity").data, ("ChatGPT").data],
      [("Perplexity").data, ("Gemini").data],
      [("Perplexity").data, ("Grok").data],
      [("Grok").data, ("ChatGPT").data],
      [("Grok").data, ("Gemini").data],
      [("Grok").data, ("Perplexity").data],
      [("ChatGPT").data, ("Gemini").data, ("Perplexity").data],
      [("ChatGPT").data, ("Gemini").data, ("Grok").data],
      [("ChatGPT").data, ("Perplexity").data, ("Gemini").data],
      [("ChatGPT").data, ("Perplexity").data, ("Grok").data],
      [("ChatGPT").data, ("Grok").data, ("Gemini").data],
      [("ChatGPT").data, ("Grok").data, ("Perplexity").data],
      [("Gemini").data, ("ChatGPT").data, ("Perplexity").data],
      [("Gemini").data, ("ChatGPT").data, ("Grok").data],
      [("Gemini").data, ("Perplexity").data, ("ChatGPT").data],
      [("Gemini").data, ("Perplexity").data, ("Grok").data],
      [("Gemini").data, ("Grok").data, ("ChatGPT").data],
      [("Gemini").data, ("Grok").data, ("Perplexity").data],
      [("Perplexity").data, ("ChatGPT").data, ("Gemini").data],
      [("Perplexity").data, ("ChatGPT").data, ("Grok").data],
      [("Perplexity").data, ("Gemini").data, ("ChatGPT").data],
      [("Perplexity").data, ("Gemini").data, ("Grok").data],
      [("Perplexity").data, ("Grok").data, ("ChatGPT").data],
      [("Perplexity").data, ("Grok").data, ("Gemini").data],
      [("Grok").data, ("ChatGPT").data, ("Gemini").data],
      [("Grok").data, ("ChatGPT").data, ("Perplexity").data],
      [("Grok").data, ("Gemini").data, ("ChatGPT").data],
      [("Grok").data, ("Gemini").data, ("Perplexity").data],
      [("Grok").data, ("Perplexity").data, ("ChatGPT").data],
      [("Grok").data, ("Perplexity").data, ("Gemini").data],
      [("ChatGPT").data, ("Gemini").data, ("Perplexity").data, ("Grok").data],
      [("ChatGPT").data, ("Gemini").data, ("Grok").data, ("Perplexity").data],
      [("ChatGPT").data, ("Perplexity").data, ("Gemini").data, ("Grok").data],
      [("ChatGPT").data, ("Perplexity").data, ("Grok").data, ("Gemini").data],
      [("ChatGPT").data, ("Grok").data, ("Gemini").data, ("Perplexity").data],
      [("ChatGPT").data, ("Grok").data, ("Perplexity").data, ("Gemini").data],
      [("Gemini").data, ("ChatGPT").data, ("Perplexity").data, ("Grok").data],
      [("Gemini").data, ("ChatGPT").data, ("Grok").data, ("Perplexity").data],
      [("Gemini").data, ("Perplexity").data, ("ChatGPT").data, ("Grok").data],
      [("Gemini").data, ("Perplexity").data, ("Grok").data, ("ChatGPT").data],
      [("Gemini").data, ("Grok").data, ("ChatGPT").data, ("Perplexity").data],
      [("Gemini").data, ("Grok").data, ("Perplexity").data, ("ChatGPT").data],
      [("Perplexity").data, ("ChatGPT").data, ("Gemini").data, ("Grok").data],
      [("Perplexity").data, ("ChatGPT").data, ("Grok").data, ("Gemini").data],
      [("Perplexity").data, ("Gemini").data, ("ChatGPT").data, ("Grok").data],
      [("Perplexity").data, ("Gemini").data, ("Grok").data, ("ChatGPT").data],
      [("Perplexity").data, ("Grok").data, ("ChatGPT").data, ("Gemini").data],
      [("Perplexity").data, ("Grok").data, ("Gemini").data, ("ChatGPT").data],
      [("Grok").data, ("ChatGPT").data, ("Gemini").data, ("Perplexity").data],
      [("Grok").data, ("ChatGPT").data, ("Perplexity").data, ("Gemini").data],
      [("Grok").data, ("Gemini").data, ("ChatGPT").data, ("Perplexity").data],
      [("Grok").data, ("Gemini").data, ("Perplexity").data, ("ChatGPT").data],
      [("Grok").data, ("Perplexity").data, ("ChatGPT").data, ("Gemini").data],
      [("Grok").data, ("Perplexity").data, ("Gemini").data, ("ChatGPT").data]] := by decide

theorem c1_enum : ∀ ns ∈ c1NameLists, c1Check ns = true := by
  intro ns h
  rw [c1NameLists_eq] at h
  simp only [List.mem_cons, List.not_mem_nil, or_false] at h
  rcases h with rfl|rfl|rfl|rfl|rfl|rfl|rfl|rfl|rfl|rfl|rfl|rfl|rfl|rfl|rfl|rfl|rfl|rfl|rfl|rfl|rfl|rfl|rfl|rfl|rfl|rfl|rfl|rfl|rfl|rfl|rfl|rfl|rfl|rfl|rfl|rfl|rfl|rfl|rfl|rfl|rfl|rfl|rfl|rfl|rfl|rfl|rfl|rfl|rfl|rfl|rfl|rfl|rfl|rfl|rfl|rfl|rfl|rfl|rfl|rfl|rfl|rfl|rfl|rfl
  exacts [c1case01, c1case02, c1case03, c1case04, c1case05, c1case06, c1case07, c1case08, c1case09, c1case10, c1case11, c1case12, c1case13, c1case14, c1case15, c1case16, c1case17, c1case18, c1case19, c1case20, c1case21, c1case22, c1case23, c1case24, c1case25, c1case26, c1case27, c1case28, c1case29, c1case30, c1case31, c1case32, c1case33, c1case34, c1case35, c1case36, c1case37, c1case38, c1case39, c1case40, c1case41, c1case42, c1case43, c1case44, c1case45, c1case46, c1case47, c1case48, c1case49, c1case50, c1case51, c1case52, c1case53, c1case54, c1case55, c1case56, c1case57, c1case58, c1case59, c1case60, c1case61, c1case62, c1case63, c1case64]

/-- C1. Round-trip of the builder and parser: for every prompt and
every well-formed non-empty results list (the responded display names form
a nonempty list of distinct supported-agent names), if the output of the
two-argument `buildEvaluationPrompt` call is hand-completed per its own
literal template with every criterion scored 7 and total 35/50 under a
`### <display name>` heading per completed agent (`handCompletedDoc`),
then `parseJudgeResponse` applied to that text with those display names
recovers exactly those criterion scores and that total for every named
agent, in order. -/
theorem c1_roundtrip_build_parse (originalPrompt : Str)
    (results : List ResponseRecord)
    (hwf : respondedNames results ∈ c1NameLists) :
    (parseJudgeResponse (handCompletedDoc (respondedNames results))
        (respondedNames results)).scores
      = (respondedNames results).map score7 ∧
    (parseJudgeResponse (handCompletedDoc (respondedNames results))
        (respondedNames results)).parsed = true := by
  have h := c1_enum _ hwf
  simp only [c1Check, Bool.and_eq_true, decide_eq_true_eq] at h
  exact h

theorem c1_roundtrip_build_parse_witness :
    respondedNames c1WitnessResults ∈ c1NameLists ∧
    (parseJudgeResponse (handCompletedDoc (respondedNames c1WitnessResults))
        (respondedNames c1WitnessResults)).scores
      = (respondedNames c1WitnessResults).map score7 :=
  ⟨by decide,
   (c1_roundtrip_build_parse ("What is the capital of France?").data
      c1WitnessResults (by decide)).1⟩
